import Mathlib

/-!
Verification development for the DepSite nginx site-deployment tool.

The definitions below are a shallow embedding of the TypeScript sources:
`src/utils/sanitizer.ts`, `src/config/constants.ts`, `core/validator.js`,
`core/deployer.js`, `src/services/nginx.service.ts`, `src/services/ssl.service.ts`
and `src/core/config-generator.ts`.  JavaScript strings are modelled as Lean
`String` (a structure around `List Char`); functions that `throw` are modelled
with `Except String`; external effects (privileged command execution, the TCP
port probe, interactive prompts) are modelled by an explicit environment record
of oracle results, and the filesystem side effects relevant to one deployment
(the definition file and the activation symlink of the deployed identifier) by
an explicit state record.
-/

namespace DepSite

/-- ASCII uppercase letter, the `A-Z` range used by the source regexes. -/
def isAsciiUpper (c : Char) : Bool := decide (65 ≤ c.toNat ∧ c.toNat ≤ 90)

/-- ASCII lowercase letter, the `a-z` range used by the source regexes. -/
def isAsciiLower (c : Char) : Bool := decide (97 ≤ c.toNat ∧ c.toNat ≤ 122)

/-- ASCII digit, the `0-9` range used by the source regexes. -/
def isAsciiDigit (c : Char) : Bool := decide (48 ≤ c.toNat ∧ c.toNat ≤ 57)

/-- Alphanumeric ASCII character (`[a-zA-Z0-9]`). -/
def isAlnumChar (c : Char) : Bool := isAsciiUpper c || isAsciiLower c || isAsciiDigit c

/-- Character class of `VALIDATION_RULES.PROJECT_NAME.ALLOWED_CHARS`
(`/^[a-zA-Z0-9-_]+$/` in `src/config/constants.ts`) and of the negated class in
`sanitizeProjectName`'s `.replace(/[^a-zA-Z0-9-_]/g, '-')`. -/
def projNameChar (c : Char) : Bool := isAlnumChar c || c == '-' || c == '_'

/-- Character class `[a-zA-Z0-9-]` of `DeploymentOrchestrator.removeSite`'s
`.replace(/[^a-zA-Z0-9-]/g, '-')` in `core/deployer.js`.  Unlike
`projNameChar` it does not allow underscores. -/
def removeSiteChar (c : Char) : Bool := isAlnumChar c || c == '-'

/-- Model of JavaScript `String.prototype.toLowerCase` on one character:
ASCII uppercase letters are shifted into lowercase, everything else is kept.
The identifiers this program lowercases are validated ASCII, where the JS
function behaves exactly like this. -/
def jsToLower (c : Char) : Char :=
  if isAsciiUpper c then Char.ofNat (c.toNat + 32) else c

/-- Model of JavaScript `String.prototype.trim` on the character list of a
string: whitespace is removed from both ends. -/
def jsTrim (l : List Char) : List Char :=
  ((l.dropWhile Char.isWhitespace).reverse.dropWhile Char.isWhitespace).reverse

/-- Model of `.replace(/[^a-zA-Z0-9-_]/g, '-')` in
`InputSanitizer.sanitizeProjectName`: every character outside the allowed
alphabet becomes a hyphen. -/
def replaceInvalidChars (l : List Char) : List Char :=
  l.map (fun c => if projNameChar c then c else '-')

/-- Model of the second replace step of `InputSanitizer.sanitizeProjectName`
(regex: one or more hyphens, global, replaced by a single hyphen): every
maximal run of hyphens collapses to a single hyphen. -/
def collapseDashes : List Char → List Char
  | [] => []
  | [c] => [c]
  | c :: d :: rest =>
    if c == '-' && d == '-' then collapseDashes (d :: rest)
    else c :: collapseDashes (d :: rest)

/-- Model of `.replace(/^-+|-+$/g, '')` in `InputSanitizer.sanitizeProjectName`:
the leading run and the trailing run of hyphens are removed. -/
def trimEdgeDashes (l : List Char) : List Char :=
  ((l.dropWhile (fun c => c == '-')).reverse.dropWhile (fun c => c == '-')).reverse

/-- Pure transformation pipeline of `InputSanitizer.sanitizeProjectName`
(after its non-empty guard): trim, strip to the allowed alphabet, collapse
hyphen runs, trim edge hyphens, lowercase. -/
def sanitizeCore (l : List Char) : List Char :=
  (trimEdgeDashes (collapseDashes (replaceInvalidChars (jsTrim l)))).map jsToLower

/-- Model of `InputSanitizer.sanitizeProjectName` from `src/utils/sanitizer.ts`.
The source throws a `ValidationError` when `name` is falsy (for a string
argument: exactly when it is empty); the throw is modelled with `Except`. -/
def sanitizeProjectName (name : String) : Except String String :=
  if name = "" then .error "Project name must be a non-empty string"
  else .ok ⟨sanitizeCore name.data⟩

/-- Model of `InputSanitizer.sanitizeDomainName`: trim and lowercase, with the
same non-empty guard as `sanitizeProjectName`. -/
def sanitizeDomainName (domain : String) : Except String String :=
  if domain = "" then .error "Domain name must be a non-empty string"
  else .ok ⟨(jsTrim domain.data).map jsToLower⟩

/-- `VALIDATION_RULES.PORT_NUMBER.RESERVED_PORTS` from `src/config/constants.ts`. -/
def reservedPorts : List Int := [22, 25, 53, 80, 110, 143, 443, 993, 995]

/-- Model of `InputSanitizer.sanitizePortNumber` on a number argument
(`MIN = 1`, `MAX = 65535`): the range check fires first, then the reserved-set
check; on success the port is returned unchanged. -/
def sanitizePortNumber (port : Int) : Except String Int :=
  if port < 1 || port > 65535 then .error "Port must be between 1 and 65535"
  else if reservedPorts.contains port then
    .error ("Port " ++ toString port ++ " is reserved for system services")
  else .ok port

/-- Model of `InputSanitizer.generateUpstreamName`: the sanitized project name
with the fixed `_prod` suffix. -/
def generateUpstreamName (projectName : String) : Except String String := do
  let cleanName ← sanitizeProjectName projectName
  return cleanName ++ "_prod"

/-- Identifier derivation of `DeploymentOrchestrator.removeSite` in
`core/deployer.js`: `projectName.toLowerCase().replace(/[^a-zA-Z0-9-]/g, '-')`.
Note it lowercases first, maps underscores to hyphens, and neither collapses
hyphen runs nor trims edge hyphens. -/
def removeSiteCleanName (projectName : String) : String :=
  ⟨(projectName.data.map jsToLower).map (fun c => if removeSiteChar c then c else '-')⟩

/-- `ERROR_MESSAGES.INVALID_PROJECT_NAME` from `src/config/constants.ts`. -/
def invalidProjectNameMsg : String :=
  "Project name must contain only letters, numbers, hyphens, and underscores."

/-- `ERROR_MESSAGES.INVALID_DOMAIN_NAME` from `src/config/constants.ts`. -/
def invalidDomainNameMsg : String := "Please enter a valid domain name."

/-- `ERROR_MESSAGES.INVALID_PORT_NUMBER` from `src/config/constants.ts`. -/
def invalidPortNumberMsg : String := "Port must be between 1 and 65535."

/-- `ERROR_MESSAGES.RESERVED_PORT` from `src/config/constants.ts`. -/
def reservedPortMsg : String := "This port is reserved for system services."

/-- `ERROR_MESSAGES.SITE_EXISTS` from `src/config/constants.ts`. -/
def siteExistsMsg : String := "Site configuration already exists."

/-- Test of `/^[a-zA-Z0-9-_]+$/` on a character list: nonempty and every
character in the class. -/
def projNamePattern (l : List Char) : Bool := !l.isEmpty && l.all projNameChar

/-- Splitting a character list at `'.'` separators, the label structure the
domain regex of `VALIDATION_RULES.DOMAIN_NAME.PATTERN` quantifies over. -/
def splitOnDot : List Char → List (List Char)
  | [] => [[]]
  | c :: rest =>
    if c == '.' then [] :: splitOnDot rest
    else
      match splitOnDot rest with
      | [] => [[c]]
      | h :: t => (c :: h) :: t

/-- Test of one DNS label against `[a-zA-Z0-9]([a-zA-Z0-9-]{0,61}[a-zA-Z0-9])?`:
nonempty, at most 63 characters, alphanumeric at both ends, alphanumeric or
hyphen inside. -/
def domainLabelOk (l : List Char) : Bool :=
  !l.isEmpty && decide (l.length ≤ 63) && isAlnumChar (l.headD '-') &&
    isAlnumChar (l.getLastD '-') && l.all (fun c => isAlnumChar c || c == '-')

/-- Test of `VALIDATION_RULES.DOMAIN_NAME.PATTERN`
(`/^L(\.L)*$/` with `L` a DNS label): every dot-separated label is valid. -/
def domainNamePattern (l : List Char) : Bool := (splitOnDot l).all domainLabelOk

/-- Model of `ValidationService.validateProjectName` (`core/validator.js`),
returning its collected error list (`isValid` is its emptiness). -/
def validateProjectName (projectName : String) : List String :=
  if projectName = "" then ["Project name is required"]
  else
    let trimmed := jsTrim projectName.data
    (if trimmed.length < 1 then ["Project name must be at least 1 character(s)"] else []) ++
      (if trimmed.length > 50 then ["Project name must be no more than 50 characters"] else []) ++
      (if !projNamePattern trimmed then [invalidProjectNameMsg] else [])

/-- Model of `ValidationService.validateDomainName` (`core/validator.js`). -/
def validateDomainName (domainName : String) : List String :=
  if domainName = "" then ["Domain name is required"]
  else
    let trimmed := jsTrim domainName.data
    (if trimmed.length < 3 then ["Domain name must be at least 3 characters"] else []) ++
      (if trimmed.length > 253 then ["Domain name must be no more than 253 characters"] else []) ++
      (if !domainNamePattern trimmed then [invalidDomainNameMsg] else [])

/-- Model of `ValidationService.validatePortNumber` (`core/validator.js`) on a
number argument. -/
def validatePortNumber (portNumber : Int) : List String :=
  (if portNumber < 1 || portNumber > 65535 then [invalidPortNumberMsg] else []) ++
    (if reservedPorts.contains portNumber then [reservedPortMsg] else [])

/-- Model of `ValidationService.checkPortConflicts` (`core/validator.js`).
The liveness probe `SystemService.checkPortInUse` is an external TCP connect
whose implementation is not part of the sources; its outcome is an oracle:
`some b` when the probe answered `b`, `none` when it threw. -/
def checkPortConflicts (portNumber : Int) (probe : Option Bool) : List String :=
  match probe with
  | some true => []
  | some false =>
    ["No service is running on port " ++ toString portNumber ++
      ". Please ensure your Node.js application is running on this port before deploying."]
  | none =>
    ["Warning: Could not verify if port " ++ toString portNumber ++
      " is in use. Please ensure your Node.js application is running."]

/-- `DeploymentConfig` from `src/types/index.ts`: the raw user-supplied
configuration. -/
structure DeploymentConfig where
  projectName : String
  domainName : String
  portNumber : Int
deriving DecidableEq, Repr

/-- Model of `ValidationService.validateDeploymentConfig`: all four checks run
and their errors are concatenated, never short-circuited. -/
def validateDeploymentConfig (config : DeploymentConfig) (probe : Option Bool) : List String :=
  validateProjectName config.projectName ++ validateDomainName config.domainName ++
    validatePortNumber config.portNumber ++ checkPortConflicts config.portNumber probe

/-- `ProcessedConfig` from `src/types/index.ts`: the raw configuration plus the
derived sanitized fields. -/
structure ProcessedConfig where
  projectName : String
  domainName : String
  portNumber : Int
  cleanProjectName : String
  upstreamName : String
deriving DecidableEq, Repr

/-- Model of `ValidationService.processAndValidateConfig` (`core/validator.js`):
validate, then derive the sanitized fields; any sanitizer throw propagates. -/
def processAndValidateConfig (config : DeploymentConfig) (probe : Option Bool) :
    Except String ProcessedConfig :=
  let errors := validateDeploymentConfig config probe
  if !errors.isEmpty then
    .error ("Validation failed: " ++ String.intercalate ", " errors)
  else do
    let cleanProjectName ← sanitizeProjectName config.projectName
    let sanitizedDomain ← sanitizeDomainName config.domainName
    let sanitizedPort ← sanitizePortNumber config.portNumber
    let upstreamName ← generateUpstreamName config.projectName
    return { projectName := config.projectName, domainName := sanitizedDomain,
             portNumber := sanitizedPort, cleanProjectName := cleanProjectName,
             upstreamName := upstreamName }

/-- `NGINX_CONFIG.SITES_AVAILABLE_PATH` from `src/config/constants.ts`. -/
def sitesAvailablePath : String := "/etc/nginx/sites-available"

/-- `NGINX_CONFIG.SITES_ENABLED_PATH` from `src/config/constants.ts`. -/
def sitesEnabledPath : String := "/etc/nginx/sites-enabled"

/-- `NginxService.getConfigPath`: definition file path of a sanitized identifier. -/
def configFilePath (cleanProjectName : String) : String :=
  sitesAvailablePath ++ "/" ++ cleanProjectName

/-- `NginxService.getEnabledPath`: activation link path of a sanitized identifier. -/
def enabledLinkPath (cleanProjectName : String) : String :=
  sitesEnabledPath ++ "/" ++ cleanProjectName

/-- `DeploymentSummary` from `src/types/index.ts`. -/
structure DeploymentSummary where
  config : ProcessedConfig
  siteConfigPath : String
  siteEnabledPath : String
  sslEnabled : Bool
deriving DecidableEq, Repr

/-- Filesystem state of the one deployed site: whether its definition file in
`sites-available` and its activation link in `sites-enabled` exist. -/
structure SiteFiles where
  configFile : Bool
  enabledLink : Bool
deriving DecidableEq, Repr

/-- External effects invoked by the pipeline, in invocation order.  Effect
entries record the attempted operation (whether or not the underlying
privileged command succeeded); `logMsg` records the operator-visible messages
of the SSL step. -/
inductive Action where
  | writeConfigFile (path : String)
  | createSymlink (source : String) (dest : String)
  | runNginxTest
  | runNginxReload
  | removeLink (path : String)
  | removeFile (path : String)
  | runCommand (cmd : String)
  | logMsg (msg : String)
deriving DecidableEq, Repr

/-- Environment of oracle outcomes for every external interaction of one
`DeploymentOrchestrator.deploy` run: prompt answers, probe results, and
success of each privileged command.  `systemError` is `some message` when
`SystemService.validateSystemRequirements` or `validateSystemResources`
throws; `portProbe` is the `checkPortInUse` oracle (`none` when it throws);
`gitEmail` is the output of `git config --global user.email` (`none` when the
command fails); `sslErrorMsg` is the message of the error thrown by a failing
certbot invocation. -/
structure Env where
  systemError : Option String
  portProbe : Option Bool
  confirmDeploy : Bool
  confirmOverwrite : Bool
  writeFileOk : Bool
  symlinkOk : Bool
  nginxTestOk : Bool
  nginxReloadOk : Bool
  rollbackRemoveLinkOk : Bool
  rollbackRemoveFileOk : Bool
  certbotAvailable : Bool
  confirmSSL : Bool
  gitEmail : Option String
  certbotOk : Bool
  sslErrorMsg : String
deriving DecidableEq, Repr

/-- Model of `ValidationService.validatePreDeployment` (`core/validator.js`):
system validation errors, then `processAndValidateConfig` (whose throw is
caught and collected), then the existence check on success. -/
def validatePreDeployment (env : Env) (fs : SiteFiles) (config : DeploymentConfig) :
    List String × Option ProcessedConfig :=
  let systemErrors := match env.systemError with
    | some m => [m]
    | none => []
  match processAndValidateConfig config env.portProbe with
  | .ok pc => (systemErrors ++ (if fs.configFile then [siteExistsMsg] else []), some pc)
  | .error m => (systemErrors ++ [m], none)

/-- Model of `DeploymentOrchestrator.rollbackDeployment` (`core/deployer.js`):
`nginxService.disableSite` first (whose internal failure is swallowed), then,
when a configuration path was recorded, `removeFileWithSudo` on it (whose
throw the rollback catches and only logs).  Neither failure escapes. -/
def rollbackDeployment (env : Env) (fs : SiteFiles)
    (cleanProjectName configPath : String) : SiteFiles × List Action :=
  let fs1 := if env.rollbackRemoveLinkOk then { fs with enabledLink := false } else fs
  if configPath = "" then (fs1, [Action.removeLink (enabledLinkPath cleanProjectName)])
  else
    let fs2 := if env.rollbackRemoveFileOk then { fs1 with configFile := false } else fs1
    (fs2, [Action.removeLink (enabledLinkPath cleanProjectName), Action.removeFile configPath])

/-- Model of `DeploymentOrchestrator.executeDeployment` (`core/deployer.js`):
create the definition file, enable the site, test, reload; after the file is
written (`rollbackNeeded = true`) any failure triggers the rollback and the
original `DeploymentError` code still propagates. -/
def executeDeployment (env : Env) (pc : ProcessedConfig) (fs : SiteFiles) :
    Except String DeploymentSummary × SiteFiles × List Action :=
  let cfgPath := configFilePath pc.cleanProjectName
  let enPath := enabledLinkPath pc.cleanProjectName
  if !env.writeFileOk then
    (.error "CONFIG_CREATION_FAILED", fs, [Action.writeConfigFile cfgPath])
  else
    let fs1 : SiteFiles := { fs with configFile := true }
    let acts1 := [Action.writeConfigFile cfgPath]
    if !env.symlinkOk then
      let r := rollbackDeployment env fs1 pc.cleanProjectName cfgPath
      (.error "SITE_ENABLE_FAILED", r.1, acts1 ++ [Action.createSymlink cfgPath enPath] ++ r.2)
    else
      let fs2 : SiteFiles := { fs1 with enabledLink := true }
      let acts2 := acts1 ++ [Action.createSymlink cfgPath enPath]
      if !env.nginxTestOk then
        let r := rollbackDeployment env fs2 pc.cleanProjectName cfgPath
        (.error "CONFIG_TEST_FAILED", r.1, acts2 ++ [Action.runNginxTest] ++ r.2)
      else if !env.nginxReloadOk then
        let r := rollbackDeployment env fs2 pc.cleanProjectName cfgPath
        (.error "NGINX_RELOAD_FAILED", r.1,
          acts2 ++ [Action.runNginxTest, Action.runNginxReload] ++ r.2)
      else
        (.ok { config := pc, siteConfigPath := cfgPath, siteEnabledPath := enPath,
               sslEnabled := false },
         fs2, acts2 ++ [Action.runNginxTest, Action.runNginxReload])

/-- Certbot invocation built by `SSLService.setupSSLWithAutoEmail`
(`src/services/ssl.service.ts`): with the git-configured email when one with an
`@` is available, otherwise in the explicit no-email mode. -/
def certbotCommand (domainName : String) (gitEmail : Option String) : String :=
  match gitEmail with
  | some email =>
    if email != "" && email.contains '@' then
      "sudo certbot --nginx -d \"" ++ domainName ++
        "\" --non-interactive --agree-tos --redirect --email \"" ++ email ++ "\""
    else
      "sudo certbot --nginx -d \"" ++ domainName ++
        "\" --non-interactive --agree-tos --redirect --register-unsafely-without-email"
  | none =>
    "sudo certbot --nginx -d \"" ++ domainName ++
      "\" --non-interactive --agree-tos --redirect --register-unsafely-without-email"

/-- Manual retry hint printed by `DeploymentOrchestrator.setupSSL` when
issuance fails. -/
def sslManualHint (domainName : String) : String :=
  "You can set up SSL manually later: sudo certbot --nginx -d " ++ domainName

/-- Model of `DeploymentOrchestrator.setupSSL` (`core/deployer.js`): skipped
when certbot is missing or the operator declines; a failing issuance is only
logged together with the manual retry hint.  Returns the final `sslEnabled`
flag and the emitted actions. -/
def setupSSL (env : Env) (pc : ProcessedConfig) : Bool × List Action :=
  if !env.certbotAvailable then
    (false, [Action.logMsg "Certbot not available - SSL setup skipped"])
  else if !env.confirmSSL then
    (false, [Action.logMsg "SSL setup skipped by user"])
  else
    let cmd := certbotCommand pc.domainName env.gitEmail
    if env.certbotOk then (true, [Action.runCommand cmd])
    else
      (false, [Action.runCommand cmd,
        Action.logMsg ("SSL setup failed: " ++ env.sslErrorMsg),
        Action.logMsg (sslManualHint pc.domainName)])

/-- Final outcome of one `deploy` run: `complete` with the reported summary,
`cancelled` (a `process.exit(0)` after a declined prompt), or `failed` with
the `DeploymentError` code handled by `ErrorHandler.handle`. -/
inductive DeployOutcome where
  | complete (summary : DeploymentSummary)
  | cancelled
  | failed (code : String)
deriving DecidableEq, Repr

/-- Model of `DeploymentOrchestrator.deploy` (`core/deployer.js`): system
validation, configuration processing and validation, deployment confirmation,
existing-site handling, execution, optional SSL setup, summary. -/
def deploy (env : Env) (raw : DeploymentConfig) (fs : SiteFiles) :
    DeployOutcome × SiteFiles × List Action :=
  match env.systemError with
  | some _ => (.failed "SYSTEM_VALIDATION_FAILED", fs, [])
  | none =>
    let vr := validatePreDeployment env fs raw
    if !vr.1.isEmpty then (.failed "CONFIG_VALIDATION_FAILED", fs, [])
    else
      match vr.2 with
      | none => (.failed "CONFIG_VALIDATION_FAILED", fs, [])
      | some pc =>
        if !env.confirmDeploy then (.cancelled, fs, [])
        else if fs.configFile && !env.confirmOverwrite then (.cancelled, fs, [])
        else
          match executeDeployment env pc fs with
          | (.error code, fs2, acts) => (.failed code, fs2, acts)
          | (.ok summary, fs2, acts) =>
            let ssl := setupSSL env pc
            (.complete { summary with sslEnabled := ssl.1 }, fs2, acts ++ ssl.2)

/-- Join a list of template lines with newlines, the character-list content of
a multi-line JavaScript template literal whose lines these are. -/
def joinLines : List (List Char) → List Char
  | [] => []
  | [l] => l
  | l :: rest => l ++ '\n' :: joinLines rest

/-- Lines of `ConfigGenerator.buildConfigTemplate`
(`src/core/config-generator.ts`), transcribed line by line from the template
literal.  In the source `\\$` renders a backslash followed by a dollar sign,
`\\.` a backslash followed by a dot, and `\\n` inside the health-check body a
backslash followed by `n`. -/
def buildConfigTemplateLines (projectName domainName upstreamName : String)
    (portNumber : Int)
    (clientMaxBodySize proxyReadTimeout proxyConnectTimeout : String) :
    List (List Char) :=
  [ "# Upstream for ".data ++ projectName.data ++ " Production".data,
    "upstream ".data ++ upstreamName.data ++ " \x7b".data,
    "    ip_hash;".data,
    "    server 127.0.0.1:".data ++ (toString portNumber).data ++ ";".data,
    "\x7d".data,
    [],
    "# HTTP Server Block".data,
    "server \x7b".data,
    "    listen 80;".data,
    "    server_name ".data ++ domainName.data ++ ";".data,
    [],
    "    client_max_body_size ".data ++ clientMaxBodySize.data ++ ";".data,
    "    charset utf-8;".data,
    [],
    "    # Security headers".data,
    "    add_header X-Frame-Options \"SAMEORIGIN\" always;".data,
    "    add_header X-XSS-Protection \"1; mode=block\" always;".data,
    "    add_header X-Content-Type-Options \"nosniff\" always;".data,
    "    add_header Referrer-Policy \"no-referrer-when-downgrade\" always;".data,
    "    add_header Content-Security-Policy \"default-src \x27self\x27 http: https: data: blob: \x27unsafe-inline\x27\" always;".data,
    [],
    "    # Custom error pages".data,
    "    error_page 404 /not-found;".data,
    "    error_page 500 502 503 504 /bad-request;".data,
    [],
    "    # Main location block".data,
    "    location / \x7b".data,
    "        proxy_pass http://".data ++ upstreamName.data ++ ";".data,
    "        proxy_http_version 1.1;".data,
    "        proxy_set_header Upgrade \\$http_upgrade;".data,
    "        proxy_set_header Connection \x27upgrade\x27;".data,
    "        proxy_set_header Host \\$host;".data,
    "        proxy_set_header X-Real-IP \\$remote_addr;".data,
    "        proxy_set_header X-Forwarded-For \\$proxy_add_x_forwarded_for;".data,
    "        proxy_set_header X-Forwarded-Proto \\$scheme;".data,
    "        proxy_cache_bypass \\$http_upgrade;".data,
    "        proxy_read_timeout ".data ++ proxyReadTimeout.data ++ ";".data,
    "        proxy_connect_timeout ".data ++ proxyConnectTimeout.data ++ ";".data,
    [],
    "        # Additional proxy settings".data,
    "        proxy_buffering on;".data,
    "        proxy_buffer_size 128k;".data,
    "        proxy_buffers 4 256k;".data,
    "        proxy_busy_buffers_size 256k;".data,
    "    \x7d".data,
    [],
    "    # Health check endpoint".data,
    "    location /health \x7b".data,
    "        access_log off;".data,
    "        return 200 \"healthy\\n\";".data,
    "        add_header Content-Type text/plain;".data,
    "    \x7d".data,
    [],
    "    # Block access to sensitive files".data,
    "    location ~ /\\. \x7b".data,
    "        deny all;".data,
    "    \x7d".data,
    [],
    "    location ~* \\.(env|log|ini|conf)$ \x7b".data,
    "        deny all;".data,
    "    \x7d".data,
    "\x7d".data ]

/-- Lines of `ConfigGenerator.generateNginxConfig`: the template with the
`NGINX_CONFIG` limits (`20M`, `300s`, `75s`) filled in. -/
def generateNginxConfigLines (pc : ProcessedConfig) : List (List Char) :=
  buildConfigTemplateLines pc.projectName pc.domainName pc.upstreamName pc.portNumber
    "20M" "300s" "75s"

/-- Model of `ConfigGenerator.generateNginxConfig`: the rendered plain
configuration text. -/
def generateNginxConfig (pc : ProcessedConfig) : String :=
  ⟨joinLines (generateNginxConfigLines pc)⟩

/-- Lines of `ConfigGenerator.buildSSLConfigBlock`
(`src/core/config-generator.ts`), transcribed line by line. -/
def buildSSLConfigBlockLines (domainName upstreamName : String) : List (List Char) :=
  [ "# HTTPS Server Block (Added by Certbot)".data,
    "server \x7b".data,
    "    listen 443 ssl http2;".data,
    "    server_name ".data ++ domainName.data ++ ";".data,
    [],
    "    # SSL Configuration will be managed by Certbot".data,
    "    ssl_certificate /etc/letsencrypt/live/".data ++ domainName.data ++ "/fullchain.pem;".data,
    "    ssl_certificate_key /etc/letsencrypt/live/".data ++ domainName.data ++ "/privkey.pem;".data,
    "    include /etc/letsencrypt/options-ssl-nginx.conf;".data,
    "    ssl_dhparam /etc/letsencrypt/ssl-dhparams.pem;".data,
    [],
    "    # Additional SSL security headers".data,
    "    add_header Strict-Transport-Security \"max-age=31536000; includeSubDomains\" always;".data,
    [],
    "    # Main location block for SSL".data,
    "    location / \x7b".data,
    "        proxy_pass http://".data ++ upstreamName.data ++ ";".data,
    "        proxy_http_version 1.1;".data,
    "        proxy_set_header Upgrade \\$http_upgrade;".data,
    "        proxy_set_header Connection \x27upgrade\x27;".data,
    "        proxy_set_header Host \\$host;".data,
    "        proxy_set_header X-Real-IP \\$remote_addr;".data,
    "        proxy_set_header X-Forwarded-For \\$proxy_add_x_forwarded_for;".data,
    "        proxy_set_header X-Forwarded-Proto https;".data,
    "        proxy_cache_bypass \\$http_upgrade;".data,
    "    \x7d".data,
    "\x7d".data ]

/-- Model of `ConfigGenerator.generateSSLConfig`: the plain configuration, a
blank separator (the source's two newlines), then the SSL block. -/
def generateSSLConfig (pc : ProcessedConfig) : String :=
  ⟨joinLines (generateNginxConfigLines pc) ++
    ('\n' :: '\n' :: joinLines (buildSSLConfigBlockLines pc.domainName pc.upstreamName))⟩

/-- Combined line list of the SSL rendering: plain lines, one empty separator
line, then the SSL block lines. -/
def generateSSLConfigLines (pc : ProcessedConfig) : List (List Char) :=
  generateNginxConfigLines pc ++ [[]] ++ buildSSLConfigBlockLines pc.domainName pc.upstreamName

/-- Character class of the sanitizer's output alphabet: lowercase letters,
digits, hyphen, underscore. -/
def sanitizedChar (c : Char) : Bool :=
  isAsciiLower c || isAsciiDigit c || c == '-' || c == '_'

/-- Configuration-template field characters that cannot disturb the rendered
structure: no braces and no newline. -/
def templateSafe (c : Char) : Bool :=
  c != '\x7b' && c != '\x7d' && c != '\n'

/-- Test scenario configuration from the specification: identifier
`hrayfi-api`, domain `hrayfi-api.reacture.dev`, port 3101. -/
def sampleConfig : DeploymentConfig :=
  { projectName := "hrayfi-api", domainName := "hrayfi-api.reacture.dev", portNumber := 3101 }

/-- Environment in which every prompt is confirmed and every external
operation succeeds. -/
def allOkEnv : Env :=
  { systemError := none, portProbe := some true, confirmDeploy := true,
    confirmOverwrite := true, writeFileOk := true, symlinkOk := true,
    nginxTestOk := true, nginxReloadOk := true, rollbackRemoveLinkOk := true,
    rollbackRemoveFileOk := true, certbotAvailable := true, confirmSSL := true,
    gitEmail := none, certbotOk := true, sslErrorMsg := "" }

deriving instance DecidableEq for Except

/-- Processed configuration derived by the sanitizers from a raw
configuration: the value `processAndValidateConfig` returns when validation
passes. -/
def processedOf (cfg : DeploymentConfig) : ProcessedConfig :=
  { projectName := cfg.projectName,
    domainName := ⟨(jsTrim cfg.domainName.data).map jsToLower⟩,
    portNumber := cfg.portNumber,
    cleanProjectName := ⟨sanitizeCore cfg.projectName.data⟩,
    upstreamName := (⟨sanitizeCore cfg.projectName.data⟩ : String) ++ "_prod" }

/-- Absence of adjacent hyphens, the invariant established by the
hyphen-collapsing step of the sanitizer. -/
def noDashPair (a b : Char) : Prop := ¬(a = '-' ∧ b = '-')

theorem ne_of_toNat_ne {c d : Char} (h : c.toNat ≠ d.toNat) : c ≠ d :=
  fun he => h (by rw [he])

theorem jsToLower_eq_self {c : Char} (h : isAsciiUpper c = false) : jsToLower c = c := by
  simp [jsToLower, h]

theorem toNat_jsToLower_upper {c : Char} (h : isAsciiUpper c = true) :
    (jsToLower c).toNat = c.toNat + 32 := by
  have hb : 65 ≤ c.toNat ∧ c.toNat ≤ 90 := by simpa [isAsciiUpper] using h
  have hv : Nat.isValidChar (c.toNat + 32) := Or.inl (by omega)
  simp only [jsToLower, h, if_true]
  rw [Char.ofNat, dif_pos hv]
  rfl

theorem sanitizedChar_toNat {c : Char} (h : sanitizedChar c = true) :
    (97 ≤ c.toNat ∧ c.toNat ≤ 122) ∨ (48 ≤ c.toNat ∧ c.toNat ≤ 57) ∨
      c.toNat = 45 ∨ c.toNat = 95 := by
  simp [sanitizedChar, isAsciiLower, isAsciiDigit] at h
  rcases h with ((h | h) | h) | h
  · exact Or.inl h
  · exact Or.inr (Or.inl h)
  · exact Or.inr (Or.inr (Or.inl (by rw [h]; rfl)))
  · exact Or.inr (Or.inr (Or.inr (by rw [h]; rfl)))

theorem projNameChar_of_sanitized {c : Char} (h : sanitizedChar c = true) :
    projNameChar c = true := by
  simp [sanitizedChar] at h
  simp [projNameChar, isAlnumChar]
  tauto

theorem not_upper_of_sanitized {c : Char} (h : sanitizedChar c = true) :
    isAsciiUpper c = false := by
  have ht := sanitizedChar_toNat h
  simp [isAsciiUpper]
  omega

theorem not_whitespace_of_sanitized {c : Char} (h : sanitizedChar c = true) :
    c.isWhitespace = false := by
  have ht := sanitizedChar_toNat h
  have h1 : c ≠ ' ' := ne_of_toNat_ne (by rw [show (' ' : Char).toNat = 32 from rfl]; omega)
  have h2 : c ≠ '\t' := ne_of_toNat_ne (by rw [show ('\t' : Char).toNat = 9 from rfl]; omega)
  have h3 : c ≠ '\r' := ne_of_toNat_ne (by rw [show ('\r' : Char).toNat = 13 from rfl]; omega)
  have h4 : c ≠ '\n' := ne_of_toNat_ne (by rw [show ('\n' : Char).toNat = 10 from rfl]; omega)
  simp [Char.isWhitespace, h1, h2, h3, h4]

theorem jsToLower_eq_dash {c : Char} (h : jsToLower c = '-') : c = '-' := by
  by_cases hu : isAsciiUpper c = true
  · exfalso
    have h2 := toNat_jsToLower_upper hu
    rw [h] at h2
    have hb : 65 ≤ c.toNat ∧ c.toNat ≤ 90 := by simpa [isAsciiUpper] using hu
    have h45 : (45 : Nat) = c.toNat + 32 := h2
    omega
  · rw [Bool.not_eq_true] at hu
    rwa [jsToLower_eq_self hu] at h

theorem sanitizedChar_jsToLower {c : Char} (h : projNameChar c = true) :
    sanitizedChar (jsToLower c) = true := by
  by_cases hu : isAsciiUpper c = true
  · have hb : 65 ≤ c.toNat ∧ c.toNat ≤ 90 := by simpa [isAsciiUpper] using hu
    have ht := toNat_jsToLower_upper hu
    have hl : isAsciiLower (jsToLower c) = true := by
      simp [isAsciiLower, ht]
      omega
    simp [sanitizedChar, hl]
  · rw [Bool.not_eq_true] at hu
    rw [jsToLower_eq_self hu]
    simp [projNameChar, isAlnumChar, hu] at h
    simp [sanitizedChar, isAsciiLower, isAsciiDigit]
    simp [isAsciiUpper] at hu
    simp [isAsciiLower, isAsciiDigit] at h
    tauto

theorem dropWhile_eq_self_of {α : Type} {p : α → Bool} {l : List α}
    (h : ∀ a ∈ l, p a = false) : l.dropWhile p = l := by
  cases l with
  | nil => rfl
  | cons a t =>
    exact List.dropWhile_cons_of_neg (by simp [h a (List.mem_cons_self a t)])

theorem mem_dropWhile_of {α : Type} {p : α → Bool} {c : α} {l : List α}
    (hc : p c = false) (h : c ∈ l) : c ∈ l.dropWhile p := by
  induction l with
  | nil => cases h
  | cons a t ih =>
    by_cases ha : p a = true
    · rw [List.dropWhile_cons_of_pos ha]
      rcases List.mem_cons.mp h with rfl | hm
      · rw [ha] at hc; cases hc
      · exact ih hm
    · rw [List.dropWhile_cons_of_neg ha]
      exact h

theorem head?_dropWhile_eq_some {α : Type} {p : α → Bool} {l : List α} {c : α}
    (h : (l.dropWhile p).head? = some c) : p c = false := by
  have hw := List.head?_dropWhile_not p l
  rw [h] at hw
  exact hw

theorem jsTrim_eq_self {l : List Char} (h : ∀ c ∈ l, c.isWhitespace = false) :
    jsTrim l = l := by
  unfold jsTrim
  rw [dropWhile_eq_self_of h,
    dropWhile_eq_self_of (fun c hc => h c (List.mem_reverse.mp hc)),
    List.reverse_reverse]

theorem mem_jsTrim_of {c : Char} {l : List Char} (hc : c.isWhitespace = false)
    (h : c ∈ l) : c ∈ jsTrim l := by
  unfold jsTrim
  rw [List.mem_reverse]
  exact mem_dropWhile_of hc (List.mem_reverse.mpr (mem_dropWhile_of hc h))

theorem jsTrim_length_le (l : List Char) : (jsTrim l).length ≤ l.length := by
  unfold jsTrim
  calc ((l.dropWhile Char.isWhitespace).reverse.dropWhile Char.isWhitespace).reverse.length
      = ((l.dropWhile Char.isWhitespace).reverse.dropWhile Char.isWhitespace).length := by
        rw [List.length_reverse]
    _ ≤ (l.dropWhile Char.isWhitespace).reverse.length :=
        (List.dropWhile_sublist _).length_le
    _ = (l.dropWhile Char.isWhitespace).length := by rw [List.length_reverse]
    _ ≤ l.length := (List.dropWhile_sublist _).length_le

theorem getLast?_of_suffix {α : Type} {l' l : List α} (h : l' <:+ l) (hne : l' ≠ []) :
    l'.getLast? = l.getLast? := by
  obtain ⟨pre, rfl⟩ := h
  rw [List.getLast?_append]
  cases hl : l'.getLast? with
  | some a => rfl
  | none => exact absurd (List.getLast?_eq_none_iff.mp hl) hne

theorem trimEdgeDashes_eq_self {l : List Char} (h1 : l.head? ≠ some '-')
    (h2 : l.getLast? ≠ some '-') : trimEdgeDashes l = l := by
  unfold trimEdgeDashes
  have e1 : l.dropWhile (fun c => c == '-') = l := by
    cases l with
    | nil => rfl
    | cons a t =>
      apply List.dropWhile_cons_of_neg
      simp only [List.head?_cons, ne_eq, Option.some.injEq] at h1
      simp [h1]
  rw [e1]
  have e2 : l.reverse.dropWhile (fun c => c == '-') = l.reverse := by
    cases hr : l.reverse with
    | nil => rfl
    | cons a t =>
      apply List.dropWhile_cons_of_neg
      have : l.reverse.head? = some a := by rw [hr]; rfl
      rw [List.head?_reverse] at this
      simp only [ne_eq] at h2
      have ha : a ≠ '-' := fun he => h2 (he ▸ this)
      simp [ha]
  rw [e2, List.reverse_reverse]

theorem mem_trimEdgeDashes_of {c : Char} {l : List Char} (hc : c ≠ '-') (h : c ∈ l) :
    c ∈ trimEdgeDashes l := by
  unfold trimEdgeDashes
  have hb : (c == '-') = false := by simp [hc]
  rw [List.mem_reverse]
  exact mem_dropWhile_of hb (List.mem_reverse.mpr (mem_dropWhile_of hb h))

theorem mem_of_mem_trimEdgeDashes {c : Char} {l : List Char} (h : c ∈ trimEdgeDashes l) :
    c ∈ l := by
  unfold trimEdgeDashes at h
  rw [List.mem_reverse] at h
  have h2 := List.dropWhile_subset (l := (l.dropWhile (fun c => c == '-')).reverse)
    (fun c => c == '-') h
  rw [List.mem_reverse] at h2
  exact List.dropWhile_subset _ h2

theorem trimEdgeDashes_head? (l : List Char) : (trimEdgeDashes l).head? ≠ some '-' := by
  unfold trimEdgeDashes
  rw [List.head?_reverse]
  intro h
  -- the final getLast? is the getLast? of the second dropWhile result
  have hne : (l.dropWhile (fun c => c == '-')).reverse.dropWhile (fun c => c == '-') ≠ [] := by
    intro he
    rw [he] at h
    cases h
  have := getLast?_of_suffix (List.dropWhile_suffix (l := (l.dropWhile (fun c => c == '-')).reverse)
    (fun c => c == '-')) hne
  rw [h, List.getLast?_reverse] at this
  have hd := head?_dropWhile_eq_some this.symm
  simp at hd

theorem trimEdgeDashes_getLast? (l : List Char) : (trimEdgeDashes l).getLast? ≠ some '-' := by
  unfold trimEdgeDashes
  rw [List.getLast?_reverse]
  intro h
  have hd := head?_dropWhile_eq_some h
  simp at hd

theorem trimEdgeDashes_length_le (l : List Char) :
    (trimEdgeDashes l).length ≤ l.length := by
  unfold trimEdgeDashes
  calc ((l.dropWhile (fun c => c == '-')).reverse.dropWhile (fun c => c == '-')).reverse.length
      = ((l.dropWhile (fun c => c == '-')).reverse.dropWhile (fun c => c == '-')).length := by
        rw [List.length_reverse]
    _ ≤ (l.dropWhile (fun c => c == '-')).reverse.length := (List.dropWhile_sublist _).length_le
    _ = (l.dropWhile (fun c => c == '-')).length := by rw [List.length_reverse]
    _ ≤ l.length := (List.dropWhile_sublist _).length_le

theorem trimEdgeDashes_within (l : List Char) : trimEdgeDashes l <:+: l := by
  unfold trimEdgeDashes
  have h1 : (l.dropWhile (fun c => c == '-')).reverse.dropWhile (fun c => c == '-') <:+
      (l.dropWhile (fun c => c == '-')).reverse := List.dropWhile_suffix _
  have h2 : ((l.dropWhile (fun c => c == '-')).reverse.dropWhile (fun c => c == '-')).reverse <+:
      l.dropWhile (fun c => c == '-') := by
    rw [← List.reverse_reverse (l.dropWhile (fun c => c == '-'))] at h1 ⊢
    rw [List.reverse_prefix]
    simpa using h1
  exact h2.isInfix.trans (List.dropWhile_suffix _).isInfix

theorem collapseDashes_head? : ∀ l : List Char, (collapseDashes l).head? = l.head? := by
  intro l
  induction l with
  | nil => rfl
  | cons a t ih =>
    cases t with
    | nil => rfl
    | cons b r =>
      by_cases hab : (a == '-' && b == '-') = true
      · rw [show collapseDashes (a :: b :: r) = collapseDashes (b :: r) from by
          simp [collapseDashes, hab]]
        rw [ih]
        simp at hab
        simp [hab.1, hab.2]
      · rw [show collapseDashes (a :: b :: r) = a :: collapseDashes (b :: r) from by
          simp only [collapseDashes, if_neg hab]]
        rfl

theorem mem_of_mem_collapseDashes : ∀ {l : List Char} {c : Char},
    c ∈ collapseDashes l → c ∈ l := by
  intro l
  induction l with
  | nil => intro c h; cases h
  | cons a t ih =>
    cases t with
    | nil => intro c h; exact h
    | cons b r =>
      intro c h
      by_cases hab : (a == '-' && b == '-') = true
      · rw [show collapseDashes (a :: b :: r) = collapseDashes (b :: r) from by
          simp [collapseDashes, hab]] at h
        exact List.mem_cons_of_mem a (ih h)
      · rw [show collapseDashes (a :: b :: r) = a :: collapseDashes (b :: r) from by
          simp only [collapseDashes, if_neg hab]] at h
        rcases List.mem_cons.mp h with rfl | hm
        · exact List.mem_cons_self _ _
        · exact List.mem_cons_of_mem a (ih hm)

theorem mem_collapseDashes_of_ne {c : Char} (hc : c ≠ '-') : ∀ {l : List Char},
    c ∈ l → c ∈ collapseDashes l := by
  intro l
  induction l with
  | nil => intro h; cases h
  | cons a t ih =>
    cases t with
    | nil => intro h; exact h
    | cons b r =>
      intro h
      by_cases hab : (a == '-' && b == '-') = true
      · rw [show collapseDashes (a :: b :: r) = collapseDashes (b :: r) from by
          simp [collapseDashes, hab]]
        simp at hab
        rcases List.mem_cons.mp h with rfl | hm
        · exact absurd hab.1 hc
        · exact ih hm
      · rw [show collapseDashes (a :: b :: r) = a :: collapseDashes (b :: r) from by
          simp only [collapseDashes, if_neg hab]]
        rcases List.mem_cons.mp h with rfl | hm
        · exact List.mem_cons_self _ _
        · exact List.mem_cons_of_mem a (ih hm)

theorem collapseDashes_length_le : ∀ l : List Char, (collapseDashes l).length ≤ l.length := by
  intro l
  induction l with
  | nil => exact Nat.le_refl _
  | cons a t ih =>
    cases t with
    | nil => exact Nat.le_refl _
    | cons b r =>
      by_cases hab : (a == '-' && b == '-') = true
      · rw [show collapseDashes (a :: b :: r) = collapseDashes (b :: r) from by
          simp [collapseDashes, hab]]
        exact Nat.le_trans ih (by simp)
      · rw [show collapseDashes (a :: b :: r) = a :: collapseDashes (b :: r) from by
          simp only [collapseDashes, if_neg hab]]
        simpa using ih

theorem collapseDashes_chain' : ∀ l : List Char,
    List.Chain' noDashPair (collapseDashes l) := by
  intro l
  induction l with
  | nil => exact List.chain'_nil
  | cons a t ih =>
    cases t with
    | nil => exact List.chain'_singleton a
    | cons b r =>
      by_cases hab : (a == '-' && b == '-') = true
      · rw [show collapseDashes (a :: b :: r) = collapseDashes (b :: r) from by
          simp [collapseDashes, hab]]
        exact ih
      · rw [show collapseDashes (a :: b :: r) = a :: collapseDashes (b :: r) from by
          simp only [collapseDashes, if_neg hab]]
        rw [List.chain'_cons']
        refine ⟨?_, ih⟩
        intro y hy
        rw [collapseDashes_head?] at hy
        simp only [List.head?_cons, Option.mem_def, Option.some.injEq] at hy
        subst hy
        intro ⟨ha, hb⟩
        exact hab (by simp [ha, hb])

theorem collapseDashes_eq_self : ∀ {l : List Char},
    List.Chain' noDashPair l → collapseDashes l = l := by
  intro l
  induction l with
  | nil => intro _; rfl
  | cons a t ih =>
    cases t with
    | nil => intro _; rfl
    | cons b r =>
      intro h
      have hR : noDashPair a b := List.chain'_cons.mp h |>.1
      have hab : (a == '-' && b == '-') = false := by
        by_contra hne
        rw [Bool.not_eq_false] at hne
        simp at hne
        exact hR ⟨hne.1, hne.2⟩
      rw [show collapseDashes (a :: b :: r) = a :: collapseDashes (b :: r) from by
        simp only [collapseDashes, hab, Bool.false_eq_true, if_false]]
      rw [ih (List.chain'_cons.mp h).2]

theorem replaceInvalidChars_mem {c : Char} {l : List Char}
    (h : c ∈ replaceInvalidChars l) : projNameChar c = true := by
  unfold replaceInvalidChars at h
  obtain ⟨a, _, rfl⟩ := List.mem_map.mp h
  by_cases hp : projNameChar a = true
  · simp [hp]
  · simp only [hp, Bool.false_eq_true, if_false]
    rfl

theorem sanitizeCore_chars {l : List Char} {c : Char} (h : c ∈ sanitizeCore l) :
    sanitizedChar c = true := by
  unfold sanitizeCore at h
  obtain ⟨a, ha, rfl⟩ := List.mem_map.mp h
  exact sanitizedChar_jsToLower
    (replaceInvalidChars_mem
      (mem_of_mem_collapseDashes (mem_of_mem_trimEdgeDashes ha)))

theorem sanitizeCore_chain' (l : List Char) :
    List.Chain' noDashPair (sanitizeCore l) := by
  unfold sanitizeCore
  exact List.chain'_map_of_chain' jsToLower
    (fun a b hab hc => hab ⟨jsToLower_eq_dash hc.1, jsToLower_eq_dash hc.2⟩)
    ( List.Chain'.infix (collapseDashes_chain' _) (trimEdgeDashes_within _))

theorem sanitizeCore_head? (l : List Char) : (sanitizeCore l).head? ≠ some '-' := by
  unfold sanitizeCore
  rw [List.head?_map]
  intro h
  cases hh : (trimEdgeDashes (collapseDashes (replaceInvalidChars (jsTrim l)))).head? with
  | none => rw [hh] at h; cases h
  | some a =>
    rw [hh] at h
    simp only [Option.map_some', Option.some.injEq] at h
    exact trimEdgeDashes_head? _ (by rw [hh, jsToLower_eq_dash h])

theorem sanitizeCore_getLast? (l : List Char) : (sanitizeCore l).getLast? ≠ some '-' := by
  unfold sanitizeCore
  rw [List.getLast?_map]
  intro h
  cases hh : (trimEdgeDashes (collapseDashes (replaceInvalidChars (jsTrim l)))).getLast? with
  | none => rw [hh] at h; cases h
  | some a =>
    rw [hh] at h
    simp only [Option.map_some', Option.some.injEq] at h
    exact trimEdgeDashes_getLast? _ (by rw [hh, jsToLower_eq_dash h])

theorem sanitizeCore_fixed {m : List Char}
    (hchars : ∀ c ∈ m, sanitizedChar c = true)
    (hchain : List.Chain' noDashPair m)
    (hh : m.head? ≠ some '-') (hl : m.getLast? ≠ some '-') :
    sanitizeCore m = m := by
  unfold sanitizeCore
  rw [jsTrim_eq_self (fun c hc => not_whitespace_of_sanitized (hchars c hc))]
  have hrepl : replaceInvalidChars m = m := by
    unfold replaceInvalidChars
    have : List.map (fun c => if projNameChar c then c else '-') m = List.map id m :=
      List.map_congr_left (fun a ha => if_pos (projNameChar_of_sanitized (hchars a ha)))
    rw [this, List.map_id]
  rw [hrepl, collapseDashes_eq_self hchain, trimEdgeDashes_eq_self hh hl]
  have hlow : List.map jsToLower m = List.map id m :=
    List.map_congr_left (fun a ha => jsToLower_eq_self (not_upper_of_sanitized (hchars a ha)))
  rw [hlow, List.map_id]

theorem sanitizeCore_idem (l : List Char) :
    sanitizeCore (sanitizeCore l) = sanitizeCore l :=
  sanitizeCore_fixed (fun _ hc => sanitizeCore_chars hc) (sanitizeCore_chain' l)
    (sanitizeCore_head? l) (sanitizeCore_getLast? l)

theorem sanitizeCore_length_le (l : List Char) :
    (sanitizeCore l).length ≤ (jsTrim l).length := by
  unfold sanitizeCore
  rw [List.length_map]
  calc (trimEdgeDashes (collapseDashes (replaceInvalidChars (jsTrim l)))).length
      ≤ (collapseDashes (replaceInvalidChars (jsTrim l))).length := trimEdgeDashes_length_le _
    _ ≤ (replaceInvalidChars (jsTrim l)).length := collapseDashes_length_le _
    _ = (jsTrim l).length := List.length_map _ _

theorem sanitizeProjectName_ok {x y : String} (h : sanitizeProjectName x = .ok y) :
    x ≠ "" ∧ y = ⟨sanitizeCore x.data⟩ := by
  by_cases hx : x = ""
  · rw [hx] at h
    simp [sanitizeProjectName] at h
  · refine ⟨hx, ?_⟩
    simp [sanitizeProjectName, hx] at h
    exact h.symm

/-- C6 counterexample: for the raw identifier `"-"` the first sanitization
returns the empty string, and sanitizing that result throws the non-empty
guard error, so `sanitize (sanitize "-")` is not `sanitize "-"`. -/
theorem sanitizeProjectName_idem_counterexample :
    (sanitizeProjectName "-").bind sanitizeProjectName ≠ sanitizeProjectName "-" := by
  decide

/-- C6 (amended): `sanitizeProjectName` is idempotent on every input whose
sanitization does not produce the empty identifier; inputs consisting only of
separators sanitize to `""`, which the second pass rejects with a validation
error instead of returning it. -/
theorem sanitizeProjectName_idem_amended (x : String)
    (h : sanitizeProjectName x ≠ .ok "") :
    (sanitizeProjectName x).bind sanitizeProjectName = sanitizeProjectName x := by
  cases hx : sanitizeProjectName x with
  | error e => rfl
  | ok y =>
    obtain ⟨hne, rfl⟩ := sanitizeProjectName_ok hx
    have hy : (⟨sanitizeCore x.data⟩ : String) ≠ "" := by
      rw [hx] at h
      intro he
      exact h (by rw [he])
    show sanitizeProjectName ⟨sanitizeCore x.data⟩ = .ok ⟨sanitizeCore x.data⟩
    simp only [sanitizeProjectName, if_neg hy]
    rw [sanitizeCore_idem]

/-- C6 witness: a concrete idempotent run. -/
theorem sanitizeProjectName_idem_witness :
    (sanitizeProjectName "My App").bind sanitizeProjectName = sanitizeProjectName "My App" :=
  sanitizeProjectName_idem_amended "My App" (by decide)

/-- C7 counterexample: the empty raw input is rejected with a
`ValidationError`, so `sanitizeProjectName` is not total. -/
theorem sanitizeProjectName_total_counterexample :
    sanitizeProjectName "" = .error "Project name must be a non-empty string" := rfl

/-- C7 (amended): on every nonempty raw input string `sanitizeProjectName`
returns an identifier without raising; only the empty string throws. -/
theorem sanitizeProjectName_total_amended (x : String) (h : x ≠ "") :
    ∃ y, sanitizeProjectName x = .ok y :=
  ⟨⟨sanitizeCore x.data⟩, by simp [sanitizeProjectName, h]⟩

/-- C7 witness: a concrete successful run. -/
theorem sanitizeProjectName_total_witness :
    ∃ y, sanitizeProjectName "hrayfi-api" = .ok y :=
  sanitizeProjectName_total_amended "hrayfi-api" (by decide)

/-- C10: for every raw project name containing an underscore, the identifier
produced by deploy's `sanitizeProjectName` (which keeps underscores) differs
from the identifier `removeSite` derives for the same raw name (which maps
underscores to hyphens). -/
theorem removeSite_deploy_identifier_diverge (raw : String) (h : '_' ∈ raw.data) :
    ∃ y, sanitizeProjectName raw = .ok y ∧ y ≠ removeSiteCleanName raw := by
  have hraw : raw ≠ "" := by
    intro he
    rw [he] at h
    cases h
  refine ⟨⟨sanitizeCore raw.data⟩, by simp [sanitizeProjectName, hraw], ?_⟩
  intro he
  have h1 : '_' ∈ sanitizeCore raw.data := by
    unfold sanitizeCore
    have m1 : '_' ∈ jsTrim raw.data := mem_jsTrim_of (by decide) h
    have m2 : '_' ∈ replaceInvalidChars (jsTrim raw.data) := by
      unfold replaceInvalidChars
      have hid : (if projNameChar '_' then '_' else '-') = '_' := by decide
      exact hid ▸ List.mem_map_of_mem _ m1
    have m3 : '_' ∈ collapseDashes (replaceInvalidChars (jsTrim raw.data)) :=
      mem_collapseDashes_of_ne (by decide) m2
    have m4 : '_' ∈ trimEdgeDashes (collapseDashes (replaceInvalidChars (jsTrim raw.data))) :=
      mem_trimEdgeDashes_of (by decide) m3
    have hlo : jsToLower '_' = '_' := by decide
    exact hlo ▸ List.mem_map_of_mem jsToLower m4
  have h2 : '_' ∉ (removeSiteCleanName raw).data := by
    intro hm
    unfold removeSiteCleanName at hm
    obtain ⟨a, _, ha⟩ := List.mem_map.mp hm
    by_cases hra : removeSiteChar a = true
    · rw [if_pos hra] at ha
      rw [ha] at hra
      exact absurd hra (by decide)
    · rw [if_neg hra] at ha
      exact absurd ha (by decide)
  apply h2
  rw [← he]
  exact h1

/-- C10 witness: the concrete name `my_app` deploys as `my_app` but `remove`
targets `my-app`. -/
theorem removeSite_deploy_identifier_diverge_witness :
    ∃ y, sanitizeProjectName "my_app" = .ok y ∧ y ≠ removeSiteCleanName "my_app" :=
  removeSite_deploy_identifier_diverge "my_app" (by decide)

theorem validateProjectName_nil_imp {p : String} (h : validateProjectName p = []) :
    p ≠ "" ∧ (jsTrim p.data).length ≤ 50 := by
  by_cases hp : p = ""
  · rw [hp] at h
    simp [validateProjectName] at h
  · refine ⟨hp, ?_⟩
    simp only [validateProjectName, if_neg hp] at h
    have h2 := (List.append_eq_nil.mp (List.append_eq_nil.mp h).1).2
    by_contra hgt
    rw [Nat.not_le] at hgt
    rw [if_pos hgt] at h2
    cases h2

theorem validateDomainName_nil_imp {d : String} (h : validateDomainName d = []) :
    d ≠ "" := by
  intro hd
  rw [hd] at h
  simp [validateDomainName] at h

theorem validatePortNumber_nil_imp {p : Int} (h : validatePortNumber p = []) :
    1 ≤ p ∧ p ≤ 65535 ∧ reservedPorts.contains p = false := by
  unfold validatePortNumber at h
  obtain ⟨h1, h2⟩ := List.append_eq_nil.mp h
  have hb : (decide (p < 1) || decide (p > 65535)) = false := by
    by_contra hb'
    rw [Bool.not_eq_false] at hb'
    rw [if_pos hb'] at h1
    cases h1
  have hc : reservedPorts.contains p = false := by
    by_contra hc'
    rw [Bool.not_eq_false] at hc'
    rw [if_pos hc'] at h2
    cases h2
  simp at hb
  exact ⟨by omega, by omega, hc⟩

theorem sanitizePortNumber_ok_of_valid {p : Int} (h : validatePortNumber p = []) :
    sanitizePortNumber p = .ok p := by
  obtain ⟨h1, h2, h3⟩ := validatePortNumber_nil_imp h
  have hc1 : (decide (p < 1) || decide (p > 65535)) = false := by
    simp
    omega
  simp only [sanitizePortNumber, hc1, Bool.false_eq_true, if_false, h3]

theorem validateDeploymentConfig_nil_parts {cfg : DeploymentConfig} {probe : Option Bool}
    (h : validateDeploymentConfig cfg probe = []) :
    validateProjectName cfg.projectName = [] ∧ validateDomainName cfg.domainName = [] ∧
      validatePortNumber cfg.portNumber = [] ∧ checkPortConflicts cfg.portNumber probe = [] := by
  unfold validateDeploymentConfig at h
  obtain ⟨h123, h4⟩ := List.append_eq_nil.mp h
  obtain ⟨h12, h3⟩ := List.append_eq_nil.mp h123
  obtain ⟨h1, h2⟩ := List.append_eq_nil.mp h12
  exact ⟨h1, h2, h3, h4⟩

theorem processAndValidateConfig_ok_of_valid {cfg : DeploymentConfig} {probe : Option Bool}
    (h : validateDeploymentConfig cfg probe = []) :
    processAndValidateConfig cfg probe = .ok (processedOf cfg) := by
  obtain ⟨h1, h2, h3, _⟩ := validateDeploymentConfig_nil_parts h
  obtain ⟨hp, _⟩ := validateProjectName_nil_imp h1
  have hd := validateDomainName_nil_imp h2
  unfold processAndValidateConfig
  rw [h]
  simp only [List.isEmpty_nil, Bool.not_true, Bool.false_eq_true, if_false]
  simp only [sanitizeProjectName, if_neg hp, sanitizeDomainName, if_neg hd,
    generateUpstreamName, sanitizePortNumber_ok_of_valid h3]
  rfl

theorem processAndValidateConfig_ok_inv {cfg : DeploymentConfig} {probe : Option Bool}
    {pc : ProcessedConfig} (h : processAndValidateConfig cfg probe = .ok pc) :
    validateDeploymentConfig cfg probe = [] ∧
      pc.cleanProjectName = ⟨sanitizeCore cfg.projectName.data⟩ := by
  have hnil : validateDeploymentConfig cfg probe = [] := by
    by_contra hne
    have hb : (validateDeploymentConfig cfg probe).isEmpty = false := by
      cases he : validateDeploymentConfig cfg probe with
      | nil => exact absurd he hne
      | cons a t => rfl
    unfold processAndValidateConfig at h
    simp only [hb, Bool.not_false, if_true] at h
    exact Except.noConfusion h
  refine ⟨hnil, ?_⟩
  rw [processAndValidateConfig_ok_of_valid hnil] at h
  rw [← Except.ok.inj h]
  rfl

/-- C4 counterexample: the validated raw name `"-"` sanitizes to the empty
identifier (violating non-emptiness and the pattern), and the validated raw
name `"my_app"` keeps its underscore (violating `^[a-z0-9-]+$`). -/
theorem cleanProjectName_invariant_counterexample :
    processAndValidateConfig
        { projectName := "-", domainName := "example.com", portNumber := 3000 }
        (some true) =
      .ok { projectName := "-", domainName := "example.com", portNumber := 3000,
            cleanProjectName := "", upstreamName := "_prod" } ∧
    processAndValidateConfig
        { projectName := "my_app", domainName := "example.com", portNumber := 3000 }
        (some true) =
      .ok { projectName := "my_app", domainName := "example.com", portNumber := 3000,
            cleanProjectName := "my_app", upstreamName := "my_app_prod" } := by
  constructor <;> rfl

/-- C4 (amended): for every `ProcessedConfig` produced by
`processAndValidateConfig`, the derived `cleanProjectName` is at most 50
characters long and every character of it is a lowercase letter, a digit, a
hyphen, or an underscore; it may contain underscores and may be empty, so the
spec's pattern `^[a-z0-9-]+$` and non-emptiness do not hold in general. -/
theorem cleanProjectName_invariant (cfg : DeploymentConfig) (probe : Option Bool)
    (pc : ProcessedConfig) (h : processAndValidateConfig cfg probe = .ok pc) :
    pc.cleanProjectName.length ≤ 50 ∧
      ∀ c ∈ pc.cleanProjectName.data, sanitizedChar c = true := by
  obtain ⟨hnil, hclean⟩ := processAndValidateConfig_ok_inv h
  obtain ⟨h1, _, _, _⟩ := validateDeploymentConfig_nil_parts hnil
  obtain ⟨_, h50⟩ := validateProjectName_nil_imp h1
  constructor
  · rw [hclean]
    show (sanitizeCore cfg.projectName.data).length ≤ 50
    exact Nat.le_trans (sanitizeCore_length_le _) h50
  · intro c hc
    rw [hclean] at hc
    exact sanitizeCore_chars hc

/-- C4 witness: the invariant evaluated on the specification's scenario
configuration. -/
theorem cleanProjectName_invariant_witness :
    (sampleConfig.projectName.length ≤ 50) ∧
      ({ projectName := "hrayfi-api", domainName := "hrayfi-api.reacture.dev",
         portNumber := 3101, cleanProjectName := "hrayfi-api",
         upstreamName := "hrayfi-api_prod" : ProcessedConfig
       }.cleanProjectName.length ≤ 50 ∧
        ∀ c ∈ ({ projectName := "hrayfi-api", domainName := "hrayfi-api.reacture.dev",
                 portNumber := 3101, cleanProjectName := "hrayfi-api",
                 upstreamName := "hrayfi-api_prod" : ProcessedConfig }).cleanProjectName.data,
          sanitizedChar c = true) :=
  ⟨by decide,
    cleanProjectName_invariant sampleConfig (some true) _ (by decide)⟩

/-- C8: `sanitizePortNumber` returns the port unchanged exactly when it lies
in `[1, 65535]` and is not reserved, and any returned port equals the input
(it never clamps). -/
theorem sanitizePort_exact (p : Int) :
    (sanitizePortNumber p = .ok p ↔ 1 ≤ p ∧ p ≤ 65535 ∧ p ∉ reservedPorts) ∧
      (∀ q : Int, sanitizePortNumber p = .ok q → q = p) := by
  constructor
  · constructor
    · intro h
      unfold sanitizePortNumber at h
      by_cases hb : (decide (p < 1) || decide (p > 65535)) = true
      · rw [if_pos hb] at h
        exact Except.noConfusion h
      · rw [if_neg hb] at h
        by_cases hc : reservedPorts.contains p = true
        · rw [if_pos hc] at h
          exact Except.noConfusion h
        · simp at hb
          refine ⟨by omega, by omega, ?_⟩
          intro hm
          exact hc (List.elem_iff.mpr hm)
    · intro ⟨h1, h2, h3⟩
      unfold sanitizePortNumber
      rw [if_neg (by simp; omega), if_neg (fun hc => h3 (List.elem_iff.mp hc))]
  · intro q hq
    unfold sanitizePortNumber at hq
    by_cases hb : (decide (p < 1) || decide (p > 65535)) = true
    · rw [if_pos hb] at hq
      exact Except.noConfusion hq
    · rw [if_neg hb] at hq
      by_cases hc : reservedPorts.contains p = true
      · rw [if_pos hc] at hq
        exact Except.noConfusion hq
      · rw [if_neg hc] at hq
        exact (Except.ok.inj hq).symm

/-- C8 witness: port 3101 passes unchanged and the reserved port 443 is
rejected. -/
theorem sanitizePort_exact_witness :
    sanitizePortNumber 3101 = .ok 3101 ∧ sanitizePortNumber 443 ≠ .ok 443 := by
  constructor
  · exact (sanitizePort_exact 3101).1.mpr (by decide)
  · intro h
    have h2 := (sanitizePort_exact 443).1.mp h
    exact h2.2.2 (by decide)

theorem validatePreDeployment_ok (env : Env) (raw : DeploymentConfig) (fs : SiteFiles)
    (hsys : env.systemError = none) (hprobe : env.portProbe = some true)
    (hvalid : validateDeploymentConfig raw (some true) = [])
    (hfs : fs.configFile = false) :
    validatePreDeployment env fs raw = ([], some (processedOf raw)) := by
  unfold validatePreDeployment
  rw [hsys, hprobe, processAndValidateConfig_ok_of_valid hvalid, hfs]
  simp

theorem configFilePath_ne_empty (n : String) : configFilePath n ≠ "" := by
  intro h
  have hd : ((("/etc/nginx/sites-available" : String) ++ "/") ++ n).data = [] :=
    congrArg String.data h
  rw [show ((("/etc/nginx/sites-available" : String) ++ "/") ++ n).data =
    (("/etc/nginx/sites-available" : String) ++ "/").data ++ n.data from rfl] at hd
  have h1 := (List.append_eq_nil.mp hd).1
  exact absurd h1 (by decide)

theorem rollbackDeployment_acts (env : Env) (fs : SiteFiles) (name path : String)
    (hp : path ≠ "") :
    (rollbackDeployment env fs name path).2 =
      [Action.removeLink (enabledLinkPath name), Action.removeFile path] := by
  unfold rollbackDeployment
  rw [if_neg hp]

theorem rollbackDeployment_fs_ok (env : Env) (fs : SiteFiles) (name path : String)
    (hp : path ≠ "") (hl : env.rollbackRemoveLinkOk = true)
    (hf : env.rollbackRemoveFileOk = true) :
    (rollbackDeployment env fs name path).1 = ⟨false, false⟩ := by
  unfold rollbackDeployment
  rw [if_neg hp]
  simp [hl, hf]

theorem executeDeployment_ok (env : Env) (pc : ProcessedConfig) (fs : SiteFiles)
    (hw : env.writeFileOk = true) (he : env.symlinkOk = true)
    (ht : env.nginxTestOk = true) (hr : env.nginxReloadOk = true) :
    executeDeployment env pc fs =
      (.ok { config := pc, siteConfigPath := configFilePath pc.cleanProjectName,
             siteEnabledPath := enabledLinkPath pc.cleanProjectName, sslEnabled := false },
       { configFile := true, enabledLink := true },
       [Action.writeConfigFile (configFilePath pc.cleanProjectName),
        Action.createSymlink (configFilePath pc.cleanProjectName)
          (enabledLinkPath pc.cleanProjectName),
        Action.runNginxTest, Action.runNginxReload]) := by
  unfold executeDeployment
  simp [hw, he, ht, hr]

theorem executeDeployment_enable_fail (env : Env) (pc : ProcessedConfig) (fs : SiteFiles)
    (hw : env.writeFileOk = true) (hs : env.symlinkOk = false) :
    executeDeployment env pc fs =
      (.error "SITE_ENABLE_FAILED",
       (rollbackDeployment env { fs with configFile := true } pc.cleanProjectName
         (configFilePath pc.cleanProjectName)).1,
       [Action.writeConfigFile (configFilePath pc.cleanProjectName),
        Action.createSymlink (configFilePath pc.cleanProjectName)
          (enabledLinkPath pc.cleanProjectName)] ++
         (rollbackDeployment env { fs with configFile := true } pc.cleanProjectName
           (configFilePath pc.cleanProjectName)).2) := by
  unfold executeDeployment
  simp [hw, hs]

theorem executeDeployment_test_fail (env : Env) (pc : ProcessedConfig) (fs : SiteFiles)
    (hw : env.writeFileOk = true) (he : env.symlinkOk = true)
    (ht : env.nginxTestOk = false) :
    executeDeployment env pc fs =
      (.error "CONFIG_TEST_FAILED",
       (rollbackDeployment env { fs with configFile := true, enabledLink := true }
         pc.cleanProjectName (configFilePath pc.cleanProjectName)).1,
       [Action.writeConfigFile (configFilePath pc.cleanProjectName),
        Action.createSymlink (configFilePath pc.cleanProjectName)
          (enabledLinkPath pc.cleanProjectName),
        Action.runNginxTest] ++
         (rollbackDeployment env { fs with configFile := true, enabledLink := true }
           pc.cleanProjectName (configFilePath pc.cleanProjectName)).2) := by
  unfold executeDeployment
  simp [hw, he, ht]

theorem executeDeployment_reload_fail (env : Env) (pc : ProcessedConfig) (fs : SiteFiles)
    (hw : env.writeFileOk = true) (he : env.symlinkOk = true)
    (ht : env.nginxTestOk = true) (hr : env.nginxReloadOk = false) :
    executeDeployment env pc fs =
      (.error "NGINX_RELOAD_FAILED",
       (rollbackDeployment env { fs with configFile := true, enabledLink := true }
         pc.cleanProjectName (configFilePath pc.cleanProjectName)).1,
       [Action.writeConfigFile (configFilePath pc.cleanProjectName),
        Action.createSymlink (configFilePath pc.cleanProjectName)
          (enabledLinkPath pc.cleanProjectName),
        Action.runNginxTest, Action.runNginxReload] ++
         (rollbackDeployment env { fs with configFile := true, enabledLink := true }
           pc.cleanProjectName (configFilePath pc.cleanProjectName)).2) := by
  unfold executeDeployment
  simp [hw, he, ht, hr]

theorem deploy_success (env : Env) (raw : DeploymentConfig)
    (hsys : env.systemError = none) (hprobe : env.portProbe = some true)
    (hvalid : validateDeploymentConfig raw (some true) = [])
    (hconfirm : env.confirmDeploy = true)
    (hw : env.writeFileOk = true) (he : env.symlinkOk = true)
    (ht : env.nginxTestOk = true) (hr : env.nginxReloadOk = true) :
    deploy env raw ⟨false, false⟩ =
      (.complete { config := processedOf raw,
                   siteConfigPath := configFilePath (processedOf raw).cleanProjectName,
                   siteEnabledPath := enabledLinkPath (processedOf raw).cleanProjectName,
                   sslEnabled := (setupSSL env (processedOf raw)).1 },
       { configFile := true, enabledLink := true },
       [Action.writeConfigFile (configFilePath (processedOf raw).cleanProjectName),
        Action.createSymlink (configFilePath (processedOf raw).cleanProjectName)
          (enabledLinkPath (processedOf raw).cleanProjectName),
        Action.runNginxTest, Action.runNginxReload] ++ (setupSSL env (processedOf raw)).2) := by
  unfold deploy
  rw [hsys]
  rw [validatePreDeployment_ok env raw _ hsys hprobe hvalid rfl]
  simp only [List.isEmpty_nil, Bool.not_true, Bool.false_eq_true, if_false, hconfirm,
    Bool.not_true, Bool.false_and]
  rw [executeDeployment_ok env (processedOf raw) _ hw he ht hr]

theorem deploy_exec_error (env : Env) (raw : DeploymentConfig)
    (hsys : env.systemError = none) (hprobe : env.portProbe = some true)
    (hvalid : validateDeploymentConfig raw (some true) = [])
    (hconfirm : env.confirmDeploy = true) {code : String} {fs2 : SiteFiles}
    {acts : List Action}
    (hex : executeDeployment env (processedOf raw) ⟨false, false⟩ = (.error code, fs2, acts)) :
    deploy env raw ⟨false, false⟩ = (.failed code, fs2, acts) := by
  unfold deploy
  rw [hsys]
  rw [validatePreDeployment_ok env raw _ hsys hprobe hvalid rfl]
  simp only [List.isEmpty_nil, Bool.not_true, Bool.false_eq_true, if_false, hconfirm,
    Bool.false_and]
  rw [hex]

/-- C1: for every raw configuration passing field validation with the
liveness probe answering that the backend is listening, with a healthy
system, no pre-existing site, a confirming operator and all proxy operations
succeeding, the pipeline reaches `Complete`, passing through the
configuration write, the activation link, the daemon test and the reload. -/
theorem deploy_reaches_complete (env : Env) (raw : DeploymentConfig)
    (hsys : env.systemError = none) (hprobe : env.portProbe = some true)
    (hvalid : validateDeploymentConfig raw (some true) = [])
    (hconfirm : env.confirmDeploy = true)
    (hw : env.writeFileOk = true) (he : env.symlinkOk = true)
    (ht : env.nginxTestOk = true) (hr : env.nginxReloadOk = true) :
    ∃ s rest, deploy env raw ⟨false, false⟩ =
      (DeployOutcome.complete s, { configFile := true, enabledLink := true },
        [Action.writeConfigFile (configFilePath s.config.cleanProjectName),
         Action.createSymlink (configFilePath s.config.cleanProjectName)
           (enabledLinkPath s.config.cleanProjectName),
         Action.runNginxTest, Action.runNginxReload] ++ rest) :=
  ⟨_, _, deploy_success env raw hsys hprobe hvalid hconfirm hw he ht hr⟩

/-- C1 witness: the specification's scenario (`hrayfi-api`, port 3101,
backend listening) deployed in the all-successful environment. -/
theorem deploy_reaches_complete_witness :
    ∃ s rest, deploy allOkEnv sampleConfig ⟨false, false⟩ =
      (DeployOutcome.complete s, { configFile := true, enabledLink := true },
        [Action.writeConfigFile (configFilePath s.config.cleanProjectName),
         Action.createSymlink (configFilePath s.config.cleanProjectName)
           (enabledLinkPath s.config.cleanProjectName),
         Action.runNginxTest, Action.runNginxReload] ++ rest) :=
  deploy_reaches_complete allOkEnv sampleConfig rfl rfl (by decide) rfl rfl rfl rfl rfl

/-- C2: with a pre-existing definition file the pipeline does not pause for
overwrite consent; `validatePreDeployment` already reports the
`Site configuration already exists.` validation error, so `deploy` fails with
`CONFIG_VALIDATION_FAILED` (errors reported) even though the operator would
have declined the overwrite prompt, and the unreachable prompt's answer does
not matter. -/
theorem existing_site_blocks_validation :
    validatePreDeployment { allOkEnv with confirmOverwrite := false }
        ⟨true, false⟩ sampleConfig =
      ([siteExistsMsg], some (processedOf sampleConfig)) ∧
    deploy { allOkEnv with confirmOverwrite := false } sampleConfig ⟨true, false⟩ =
      (.failed "CONFIG_VALIDATION_FAILED", ⟨true, false⟩, []) ∧
    deploy allOkEnv sampleConfig ⟨true, false⟩ =
      (.failed "CONFIG_VALIDATION_FAILED", ⟨true, false⟩, []) := by
  refine ⟨?_, ?_, ?_⟩ <;> rfl

/-- C3: when the definition file has been written and enabling, testing or
reloading fails, the pipeline fails with that step's error code (regardless
of rollback outcomes — rollback failures are never re-raised), the rollback
removes the activation link first and then the definition file (in that
order, as the final two attempted operations), and when both rollback
operations succeed neither the file nor the link remains. -/
theorem deploy_rollback_on_commit_failure (env : Env) (raw : DeploymentConfig)
    (hsys : env.systemError = none) (hprobe : env.portProbe = some true)
    (hvalid : validateDeploymentConfig raw (some true) = [])
    (hconfirm : env.confirmDeploy = true)
    (hw : env.writeFileOk = true)
    (hfail : ¬(env.symlinkOk = true ∧ env.nginxTestOk = true ∧ env.nginxReloadOk = true)) :
    (deploy env raw ⟨false, false⟩).1 =
      .failed (if env.symlinkOk = false then "SITE_ENABLE_FAILED"
        else if env.nginxTestOk = false then "CONFIG_TEST_FAILED"
        else "NGINX_RELOAD_FAILED") ∧
    (env.rollbackRemoveLinkOk = true → env.rollbackRemoveFileOk = true →
      (deploy env raw ⟨false, false⟩).2.1 = ⟨false, false⟩) ∧
    (∃ pre, (deploy env raw ⟨false, false⟩).2.2 =
      pre ++ [Action.removeLink (enabledLinkPath (processedOf raw).cleanProjectName),
              Action.removeFile (configFilePath (processedOf raw).cleanProjectName)]) := by
  by_cases hs : env.symlinkOk = true
  · by_cases htk : env.nginxTestOk = true
    · have hrl : env.nginxReloadOk = false := by
        cases hrv : env.nginxReloadOk
        · rfl
        · exact absurd ⟨hs, htk, hrv⟩ hfail
      have hd := deploy_exec_error env raw hsys hprobe hvalid hconfirm
        (executeDeployment_reload_fail env (processedOf raw) ⟨false, false⟩ hw hs htk hrl)
      refine ⟨?_, ?_, ?_⟩
      · rw [hd]
        simp [hs, htk]
      · intro hl hf
        rw [hd]
        exact rollbackDeployment_fs_ok env _ _ _ (configFilePath_ne_empty _) hl hf
      · refine ⟨[Action.writeConfigFile (configFilePath (processedOf raw).cleanProjectName),
          Action.createSymlink (configFilePath (processedOf raw).cleanProjectName)
            (enabledLinkPath (processedOf raw).cleanProjectName),
          Action.runNginxTest, Action.runNginxReload], ?_⟩
        rw [hd]
        rw [show ((.failed "NGINX_RELOAD_FAILED", (rollbackDeployment env
          { configFile := true, enabledLink := true } (processedOf raw).cleanProjectName
          (configFilePath (processedOf raw).cleanProjectName)).1,
          [Action.writeConfigFile (configFilePath (processedOf raw).cleanProjectName),
           Action.createSymlink (configFilePath (processedOf raw).cleanProjectName)
             (enabledLinkPath (processedOf raw).cleanProjectName),
           Action.runNginxTest, Action.runNginxReload] ++
            (rollbackDeployment env { configFile := true, enabledLink := true }
              (processedOf raw).cleanProjectName
              (configFilePath (processedOf raw).cleanProjectName)).2) :
          DeployOutcome × SiteFiles × List Action).2.2 =
          [Action.writeConfigFile (configFilePath (processedOf raw).cleanProjectName),
           Action.createSymlink (configFilePath (processedOf raw).cleanProjectName)
             (enabledLinkPath (processedOf raw).cleanProjectName),
           Action.runNginxTest, Action.runNginxReload] ++
            (rollbackDeployment env { configFile := true, enabledLink := true }
              (processedOf raw).cleanProjectName
              (configFilePath (processedOf raw).cleanProjectName)).2 from rfl]
        rw [rollbackDeployment_acts env _ _ _ (configFilePath_ne_empty _)]
    · have htf : env.nginxTestOk = false := by
        cases htv : env.nginxTestOk
        · rfl
        · exact absurd htv htk
      have hd := deploy_exec_error env raw hsys hprobe hvalid hconfirm
        (executeDeployment_test_fail env (processedOf raw) ⟨false, false⟩ hw hs htf)
      refine ⟨?_, ?_, ?_⟩
      · rw [hd]
        simp [hs, htf]
      · intro hl hf
        rw [hd]
        exact rollbackDeployment_fs_ok env _ _ _ (configFilePath_ne_empty _) hl hf
      · refine ⟨[Action.writeConfigFile (configFilePath (processedOf raw).cleanProjectName),
          Action.createSymlink (configFilePath (processedOf raw).cleanProjectName)
            (enabledLinkPath (processedOf raw).cleanProjectName),
          Action.runNginxTest], ?_⟩
        rw [hd]
        rw [show ∀ a : DeployOutcome, ∀ b : SiteFiles, ∀ c : List Action,
          ((a, b, c) : DeployOutcome × SiteFiles × List Action).2.2 = c from fun _ _ _ => rfl]
        rw [rollbackDeployment_acts env _ _ _ (configFilePath_ne_empty _)]
  · have hsf : env.symlinkOk = false := by
      cases hsv : env.symlinkOk
      · rfl
      · exact absurd hsv hs
    have hd := deploy_exec_error env raw hsys hprobe hvalid hconfirm
      (executeDeployment_enable_fail env (processedOf raw) ⟨false, false⟩ hw hsf)
    refine ⟨?_, ?_, ?_⟩
    · rw [hd]
      simp [hsf]
    · intro hl hf
      rw [hd]
      exact rollbackDeployment_fs_ok env _ _ _ (configFilePath_ne_empty _) hl hf
    · refine ⟨[Action.writeConfigFile (configFilePath (processedOf raw).cleanProjectName),
        Action.createSymlink (configFilePath (processedOf raw).cleanProjectName)
          (enabledLinkPath (processedOf raw).cleanProjectName)], ?_⟩
      rw [hd]
      rw [show ∀ a : DeployOutcome, ∀ b : SiteFiles, ∀ c : List Action,
        ((a, b, c) : DeployOutcome × SiteFiles × List Action).2.2 = c from fun _ _ _ => rfl]
      rw [rollbackDeployment_acts env _ _ _ (configFilePath_ne_empty _)]

/-- C3 witness: a deployment whose enable step fails against the scenario
configuration; the rollback leaves neither file nor link and the original
error code propagates. -/
theorem deploy_rollback_on_commit_failure_witness :
    ((deploy { allOkEnv with symlinkOk := false } sampleConfig ⟨false, false⟩).1 =
      .failed (if ({ allOkEnv with symlinkOk := false } : Env).symlinkOk = false
        then "SITE_ENABLE_FAILED"
        else if ({ allOkEnv with symlinkOk := false } : Env).nginxTestOk = false
        then "CONFIG_TEST_FAILED" else "NGINX_RELOAD_FAILED") ∧
    (({ allOkEnv with symlinkOk := false } : Env).rollbackRemoveLinkOk = true →
      ({ allOkEnv with symlinkOk := false } : Env).rollbackRemoveFileOk = true →
      (deploy { allOkEnv with symlinkOk := false } sampleConfig ⟨false, false⟩).2.1 =
        ⟨false, false⟩) ∧
    (∃ pre, (deploy { allOkEnv with symlinkOk := false } sampleConfig ⟨false, false⟩).2.2 =
      pre ++ [Action.removeLink (enabledLinkPath (processedOf sampleConfig).cleanProjectName),
              Action.removeFile (configFilePath (processedOf sampleConfig).cleanProjectName)])) :=
  deploy_rollback_on_commit_failure { allOkEnv with symlinkOk := false } sampleConfig
    rfl rfl (by decide) rfl rfl (by decide)

/-- C5: after a successful reload the certificate step never reverts the
deployment: the outcome is `Complete` for every certificate environment, the
definition file and activation link stay in place, no undo operation is ever
emitted, `sslEnabled` is true exactly when certbot is available, the operator
consents and issuance succeeds, and on issuance failure the operator is shown
the exact manual certbot retry command. -/
theorem ssl_setup_optional (env : Env) (raw : DeploymentConfig)
    (hsys : env.systemError = none) (hprobe : env.portProbe = some true)
    (hvalid : validateDeploymentConfig raw (some true) = [])
    (hconfirm : env.confirmDeploy = true)
    (hw : env.writeFileOk = true) (he : env.symlinkOk = true)
    (ht : env.nginxTestOk = true) (hr : env.nginxReloadOk = true) :
    ∃ s, (deploy env raw ⟨false, false⟩).1 = .complete s ∧
      s.sslEnabled = (env.certbotAvailable && (env.confirmSSL && env.certbotOk)) ∧
      (deploy env raw ⟨false, false⟩).2.1 = { configFile := true, enabledLink := true } ∧
      (∀ p, Action.removeLink p ∉ (deploy env raw ⟨false, false⟩).2.2) ∧
      (∀ p, Action.removeFile p ∉ (deploy env raw ⟨false, false⟩).2.2) ∧
      (env.certbotAvailable = true → env.confirmSSL = true → env.certbotOk = false →
        Action.logMsg (sslManualHint s.config.domainName) ∈
          (deploy env raw ⟨false, false⟩).2.2) := by
  have hd := deploy_success env raw hsys hprobe hvalid hconfirm hw he ht hr
  refine ⟨{ config := processedOf raw,
            siteConfigPath := configFilePath (processedOf raw).cleanProjectName,
            siteEnabledPath := enabledLinkPath (processedOf raw).cleanProjectName,
            sslEnabled := (setupSSL env (processedOf raw)).1 }, ?_, ?_, ?_, ?_, ?_, ?_⟩
  · rw [hd]
  · cases hca : env.certbotAvailable <;> cases hcs : env.confirmSSL <;>
      cases hok : env.certbotOk <;> simp [setupSSL, hca, hcs, hok]
  · rw [hd]
  · intro p
    rw [hd]
    cases hca : env.certbotAvailable <;> cases hcs : env.confirmSSL <;>
      cases hok : env.certbotOk <;> simp [setupSSL, hca, hcs, hok]
  · intro p
    rw [hd]
    cases hca : env.certbotAvailable <;> cases hcs : env.confirmSSL <;>
      cases hok : env.certbotOk <;> simp [setupSSL, hca, hcs, hok]
  · intro h1 h2 h3
    rw [hd]
    simp [setupSSL, h1, h2, h3]

/-- C5 witness: the scenario deployment with certbot available, consent
given and issuance failing still completes without SSL and prints the manual
retry hint. -/
theorem ssl_setup_optional_witness :
    ∃ s, (deploy { allOkEnv with certbotOk := false } sampleConfig ⟨false, false⟩).1 =
        .complete s ∧
      s.sslEnabled = (({ allOkEnv with certbotOk := false } : Env).certbotAvailable &&
        (({ allOkEnv with certbotOk := false } : Env).confirmSSL &&
          ({ allOkEnv with certbotOk := false } : Env).certbotOk)) ∧
      (deploy { allOkEnv with certbotOk := false } sampleConfig ⟨false, false⟩).2.1 =
        { configFile := true, enabledLink := true } ∧
      (∀ p, Action.removeLink p ∉
        (deploy { allOkEnv with certbotOk := false } sampleConfig ⟨false, false⟩).2.2) ∧
      (∀ p, Action.removeFile p ∉
        (deploy { allOkEnv with certbotOk := false } sampleConfig ⟨false, false⟩).2.2) ∧
      (({ allOkEnv with certbotOk := false } : Env).certbotAvailable = true →
        ({ allOkEnv with certbotOk := false } : Env).confirmSSL = true →
        ({ allOkEnv with certbotOk := false } : Env).certbotOk = false →
        Action.logMsg (sslManualHint s.config.domainName) ∈
          (deploy { allOkEnv with certbotOk := false } sampleConfig ⟨false, false⟩).2.2) :=
  ssl_setup_optional { allOkEnv with certbotOk := false } sampleConfig
    rfl rfl (by decide) rfl rfl rfl rfl rfl

theorem joinLines_count (c : Char) (hc : c ≠ '\n') :
    ∀ L : List (List Char), (joinLines L).count c = (L.map (fun l => l.count c)).sum := by
  intro L
  induction L with
  | nil => rfl
  | cons h t ih =>
    cases t with
    | nil => simp [joinLines]
    | cons h2 t2 =>
      rw [show joinLines (h :: h2 :: t2) = h ++ '\n' :: joinLines (h2 :: t2) from rfl]
      rw [List.count_append, List.count_cons_of_ne hc, ih]
      simp [List.map_cons, List.sum_cons]

theorem templateSafe_count_open {l : List Char} (h : ∀ a ∈ l, templateSafe a = true) :
    l.count '\x7b' = 0 := by
  refine List.count_eq_zero.mpr (fun hm => ?_)
  have ht := h _ hm
  simp [templateSafe] at ht

theorem templateSafe_count_close {l : List Char} (h : ∀ a ∈ l, templateSafe a = true) :
    l.count '\x7d' = 0 := by
  refine List.count_eq_zero.mpr (fun hm => ?_)
  have ht := h _ hm
  simp [templateSafe] at ht

theorem isPrefixOf_append_of_isPrefixOf {p a : List Char} (h : p.isPrefixOf a = true) :
    ∀ b, p.isPrefixOf (a ++ b) = true := by
  induction p generalizing a with
  | nil => intro b; exact List.isPrefixOf_nil_left
  | cons c p' ih =>
    intro b
    cases a with
    | nil => exact Bool.noConfusion h
    | cons d a' =>
      rw [List.cons_append, List.isPrefixOf_cons₂]
      rw [List.isPrefixOf_cons₂, Bool.and_eq_true] at h
      rw [h.1, Bool.true_and]
      exact ih h.2 b

theorem isPrefixOf_append_eq_false {p a : List Char} (h1 : p.isPrefixOf a = false)
    (h2 : a.isPrefixOf p = false) : ∀ b, p.isPrefixOf (a ++ b) = false := by
  induction p generalizing a with
  | nil =>
    rw [List.isPrefixOf_nil_left] at h1
    exact Bool.noConfusion h1
  | cons c p' ih =>
    intro b
    cases a with
    | nil => exact Bool.noConfusion h2
    | cons d a' =>
      rw [List.cons_append, List.isPrefixOf_cons₂]
      rw [List.isPrefixOf_cons₂] at h1
      rw [List.isPrefixOf_cons₂] at h2
      by_cases hcd : (c == d) = true
      · have hdc : (d == c) = true := by
          simp at hcd ⊢
          exact hcd.symm
        rw [hcd, Bool.true_and] at h1
        rw [hdc, Bool.true_and] at h2
        rw [hcd, Bool.true_and]
        exact ih h1 h2 b
      · have hf : (c == d) = false := by
          cases hv : (c == d)
          · rfl
          · exact absurd hv hcd
        rw [hf, Bool.false_and]

/-- C9: the plain rendering has balanced braces, exactly one upstream block
(with `ip_hash` and a single backend at `127.0.0.1:port`), and exactly one
server block keyed by the domain (one `server_name` line, carrying the
domain); the SSL rendering has balanced braces and a second server block with
the `/etc/letsencrypt/live/<domain>/` certificate paths, again keyed by the
domain.  Field hypotheses: the interpolated values contain no brace and no
newline (true of every validated configuration). -/
theorem render_structure (pc : ProcessedConfig)
    (hproj : ∀ c ∈ pc.projectName.data, templateSafe c = true)
    (hdom : ∀ c ∈ pc.domainName.data, templateSafe c = true)
    (hup : ∀ c ∈ pc.upstreamName.data, templateSafe c = true)
    (hport : ∀ c ∈ (toString pc.portNumber).data, templateSafe c = true) :
    (generateNginxConfig pc).data.count '\x7b' = (generateNginxConfig pc).data.count '\x7d' ∧
    (generateSSLConfig pc).data.count '\x7b' = (generateSSLConfig pc).data.count '\x7d' ∧
    (generateNginxConfigLines pc).countP (fun l => ("upstream ".data).isPrefixOf l) = 1 ∧
    "    ip_hash;".data ∈ generateNginxConfigLines pc ∧
    (generateNginxConfigLines pc).countP
      (fun l => ("    server 127.0.0.1:".data).isPrefixOf l) = 1 ∧
    "    server 127.0.0.1:".data ++ (toString pc.portNumber).data ++ ";".data ∈
      generateNginxConfigLines pc ∧
    (generateNginxConfigLines pc).countP (fun l => ("server \x7b".data).isPrefixOf l) = 1 ∧
    (generateNginxConfigLines pc).countP
      (fun l => ("    server_name ".data).isPrefixOf l) = 1 ∧
    "    server_name ".data ++ pc.domainName.data ++ ";".data ∈ generateNginxConfigLines pc ∧
    (generateSSLConfigLines pc).countP (fun l => ("server \x7b".data).isPrefixOf l) = 2 ∧
    (generateSSLConfigLines pc).countP
      (fun l => ("    server_name ".data).isPrefixOf l) = 2 ∧
    "    ssl_certificate /etc/letsencrypt/live/".data ++ pc.domainName.data ++
      "/fullchain.pem;".data ∈ generateSSLConfigLines pc ∧
    "    ssl_certificate_key /etc/letsencrypt/live/".data ++ pc.domainName.data ++
      "/privkey.pem;".data ∈ generateSSLConfigLines pc := by
  have z1 := templateSafe_count_open hproj
  have z2 := templateSafe_count_close hproj
  have z3 := templateSafe_count_open hdom
  have z4 := templateSafe_count_close hdom
  have z5 := templateSafe_count_open hup
  have z6 := templateSafe_count_close hup
  have z7 := templateSafe_count_open hport
  have z8 := templateSafe_count_close hport
  have hP1A : ∀ b, ("upstream ".data).isPrefixOf (("# Upstream for " : String).data ++ b) = false :=
    isPrefixOf_append_eq_false (by decide) (by decide)
  have hP1B : ∀ b, ("upstream ".data).isPrefixOf (("upstream " : String).data ++ b) = true :=
    isPrefixOf_append_of_isPrefixOf (by decide)
  have hP1C : ∀ b, ("upstream ".data).isPrefixOf (("    server 127.0.0.1:" : String).data ++ b) = false :=
    isPrefixOf_append_eq_false (by decide) (by decide)
  have hP1D : ∀ b, ("upstream ".data).isPrefixOf (("    server_name " : String).data ++ b) = false :=
    isPrefixOf_append_eq_false (by decide) (by decide)
  have hP1E : ∀ b, ("upstream ".data).isPrefixOf (("    client_max_body_size " : String).data ++ b) = false :=
    isPrefixOf_append_eq_false (by decide) (by decide)
  have hP1F : ∀ b, ("upstream ".data).isPrefixOf (("        proxy_pass http://" : String).data ++ b) = false :=
    isPrefixOf_append_eq_false (by decide) (by decide)
  have hP1G : ∀ b, ("upstream ".data).isPrefixOf (("        proxy_read_timeout " : String).data ++ b) = false :=
    isPrefixOf_append_eq_false (by decide) (by decide)
  have hP1H : ∀ b, ("upstream ".data).isPrefixOf (("        proxy_connect_timeout " : String).data ++ b) = false :=
    isPrefixOf_append_eq_false (by decide) (by decide)
  have hP4A : ∀ b, ("    server 127.0.0.1:".data).isPrefixOf (("# Upstream for " : String).data ++ b) = false :=
    isPrefixOf_append_eq_false (by decide) (by decide)
  have hP4B : ∀ b, ("    server 127.0.0.1:".data).isPrefixOf (("upstream " : String).data ++ b) = false :=
    isPrefixOf_append_eq_false (by decide) (by decide)
  have hP4C : ∀ b, ("    server 127.0.0.1:".data).isPrefixOf (("    server 127.0.0.1:" : String).data ++ b) = true :=
    isPrefixOf_append_of_isPrefixOf (by decide)
  have hP4D : ∀ b, ("    server 127.0.0.1:".data).isPrefixOf (("    server_name " : String).data ++ b) = false :=
    isPrefixOf_append_eq_false (by decide) (by decide)
  have hP4E : ∀ b, ("    server 127.0.0.1:".data).isPrefixOf (("    client_max_body_size " : String).data ++ b) = false :=
    isPrefixOf_append_eq_false (by decide) (by decide)
  have hP4F : ∀ b, ("    server 127.0.0.1:".data).isPrefixOf (("        proxy_pass http://" : String).data ++ b) = false :=
    isPrefixOf_append_eq_false (by decide) (by decide)
  have hP4G : ∀ b, ("    server 127.0.0.1:".data).isPrefixOf (("        proxy_read_timeout " : String).data ++ b) = false :=
    isPrefixOf_append_eq_false (by decide) (by decide)
  have hP4H : ∀ b, ("    server 127.0.0.1:".data).isPrefixOf (("        proxy_connect_timeout " : String).data ++ b) = false :=
    isPrefixOf_append_eq_false (by decide) (by decide)
  have hP2A : ∀ b, ("server \x7b".data).isPrefixOf (("# Upstream for " : String).data ++ b) = false :=
    isPrefixOf_append_eq_false (by decide) (by decide)
  have hP2B : ∀ b, ("server \x7b".data).isPrefixOf (("upstream " : String).data ++ b) = false :=
    isPrefixOf_append_eq_false (by decide) (by decide)
  have hP2C : ∀ b, ("server \x7b".data).isPrefixOf (("    server 127.0.0.1:" : String).data ++ b) = false :=
    isPrefixOf_append_eq_false (by decide) (by decide)
  have hP2D : ∀ b, ("server \x7b".data).isPrefixOf (("    server_name " : String).data ++ b) = false :=
    isPrefixOf_append_eq_false (by decide) (by decide)
  have hP2E : ∀ b, ("server \x7b".data).isPrefixOf (("    client_max_body_size " : String).data ++ b) = false :=
    isPrefixOf_append_eq_false (by decide) (by decide)
  have hP2F : ∀ b, ("server \x7b".data).isPrefixOf (("        proxy_pass http://" : String).data ++ b) = false :=
    isPrefixOf_append_eq_false (by decide) (by decide)
  have hP2G : ∀ b, ("server \x7b".data).isPrefixOf (("        proxy_read_timeout " : String).data ++ b) = false :=
    isPrefixOf_append_eq_false (by decide) (by decide)
  have hP2H : ∀ b, ("server \x7b".data).isPrefixOf (("        proxy_connect_timeout " : String).data ++ b) = false :=
    isPrefixOf_append_eq_false (by decide) (by decide)
  have hP2I : ∀ b, ("server \x7b".data).isPrefixOf (("    ssl_certificate /etc/letsencrypt/live/" : String).data ++ b) = false :=
    isPrefixOf_append_eq_false (by decide) (by decide)
  have hP2J : ∀ b, ("server \x7b".data).isPrefixOf (("    ssl_certificate_key /etc/letsencrypt/live/" : String).data ++ b) = false :=
    isPrefixOf_append_eq_false (by decide) (by decide)
  have hP3A : ∀ b, ("    server_name ".data).isPrefixOf (("# Upstream for " : String).data ++ b) = false :=
    isPrefixOf_append_eq_false (by decide) (by decide)
  have hP3B : ∀ b, ("    server_name ".data).isPrefixOf (("upstream " : String).data ++ b) = false :=
    isPrefixOf_append_eq_false (by decide) (by decide)
  have hP3C : ∀ b, ("    server_name ".data).isPrefixOf (("    server 127.0.0.1:" : String).data ++ b) = false :=
    isPrefixOf_append_eq_false (by decide) (by decide)
  have hP3D : ∀ b, ("    server_name ".data).isPrefixOf (("    server_name " : String).data ++ b) = true :=
    isPrefixOf_append_of_isPrefixOf (by decide)
  have hP3E : ∀ b, ("    server_name ".data).isPrefixOf (("    client_max_body_size " : String).data ++ b) = false :=
    isPrefixOf_append_eq_false (by decide) (by decide)
  have hP3F : ∀ b, ("    server_name ".data).isPrefixOf (("        proxy_pass http://" : String).data ++ b) = false :=
    isPrefixOf_append_eq_false (by decide) (by decide)
  have hP3G : ∀ b, ("    server_name ".data).isPrefixOf (("        proxy_read_timeout " : String).data ++ b) = false :=
    isPrefixOf_append_eq_false (by decide) (by decide)
  have hP3H : ∀ b, ("    server_name ".data).isPrefixOf (("        proxy_connect_timeout " : String).data ++ b) = false :=
    isPrefixOf_append_eq_false (by decide) (by decide)
  have hP3I : ∀ b, ("    server_name ".data).isPrefixOf (("    ssl_certificate /etc/letsencrypt/live/" : String).data ++ b) = false :=
    isPrefixOf_append_eq_false (by decide) (by decide)
  have hP3J : ∀ b, ("    server_name ".data).isPrefixOf (("    ssl_certificate_key /etc/letsencrypt/live/" : String).data ++ b) = false :=
    isPrefixOf_append_eq_false (by decide) (by decide)
  refine ⟨?_, ?_, ?_, ?_, ?_, ?_, ?_, ?_, ?_, ?_, ?_, ?_, ?_⟩
  · show (joinLines (generateNginxConfigLines pc)).count '\x7b' =
      (joinLines (generateNginxConfigLines pc)).count '\x7d'
    rw [joinLines_count _ (by decide), joinLines_count _ (by decide)]
    simp only [generateNginxConfigLines, buildConfigTemplateLines, List.map_cons, List.map_nil,
      List.sum_cons, List.sum_nil, List.count_append, z1, z2, z3, z4, z5, z6, z7, z8]
    decide
  · show (joinLines (generateNginxConfigLines pc) ++
      ('\n' :: '\n' :: joinLines (buildSSLConfigBlockLines pc.domainName pc.upstreamName))).count '\x7b' =
      (joinLines (generateNginxConfigLines pc) ++
      ('\n' :: '\n' :: joinLines (buildSSLConfigBlockLines pc.domainName pc.upstreamName))).count '\x7d'
    rw [List.count_append, List.count_append,
      List.count_cons_of_ne (by decide), List.count_cons_of_ne (by decide),
      List.count_cons_of_ne (by decide), List.count_cons_of_ne (by decide),
      joinLines_count _ (by decide), joinLines_count _ (by decide),
      joinLines_count _ (by decide), joinLines_count _ (by decide)]
    simp only [generateNginxConfigLines, buildConfigTemplateLines, buildSSLConfigBlockLines,
      List.map_cons, List.map_nil, List.sum_cons, List.sum_nil, List.count_append,
      z1, z2, z3, z4, z5, z6, z7, z8]
    decide
  · simp only [generateNginxConfigLines, buildConfigTemplateLines, List.countP_cons,
      List.countP_nil, List.append_assoc, hP1A, hP1B, hP1C, hP1D, hP1E, hP1F, hP1G, hP1H]
    decide
  · simp [generateNginxConfigLines, buildConfigTemplateLines]
  · simp only [generateNginxConfigLines, buildConfigTemplateLines, List.countP_cons,
      List.countP_nil, List.append_assoc, hP4A, hP4B, hP4C, hP4D, hP4E, hP4F, hP4G, hP4H]
    decide
  · simp [generateNginxConfigLines, buildConfigTemplateLines]
  · simp only [generateNginxConfigLines, buildConfigTemplateLines, List.countP_cons,
      List.countP_nil, List.append_assoc, hP2A, hP2B, hP2C, hP2D, hP2E, hP2F, hP2G, hP2H]
    decide
  · simp only [generateNginxConfigLines, buildConfigTemplateLines, List.countP_cons,
      List.countP_nil, List.append_assoc, hP3A, hP3B, hP3C, hP3D, hP3E, hP3F, hP3G, hP3H]
    decide
  · simp [generateNginxConfigLines, buildConfigTemplateLines]
  · simp only [generateSSLConfigLines, generateNginxConfigLines, buildConfigTemplateLines,
      buildSSLConfigBlockLines, List.countP_append, List.countP_cons, List.countP_nil,
      List.append_assoc, hP2A, hP2B, hP2C, hP2D, hP2E, hP2F, hP2G, hP2H, hP2I, hP2J]
    decide
  · simp only [generateSSLConfigLines, generateNginxConfigLines, buildConfigTemplateLines,
      buildSSLConfigBlockLines, List.countP_append, List.countP_cons, List.countP_nil,
      List.append_assoc, hP3A, hP3B, hP3C, hP3D, hP3E, hP3F, hP3G, hP3H, hP3I, hP3J]
    decide
  · simp [generateSSLConfigLines, generateNginxConfigLines, buildConfigTemplateLines,
      buildSSLConfigBlockLines]
  · simp [generateSSLConfigLines, generateNginxConfigLines, buildConfigTemplateLines,
      buildSSLConfigBlockLines]

/-- C9 witness: the structural facts evaluated on the scenario configuration. -/
theorem render_structure_witness :
    (generateNginxConfig (processedOf sampleConfig)).data.count '\x7b' =
      (generateNginxConfig (processedOf sampleConfig)).data.count '\x7d' ∧
    (generateNginxConfigLines (processedOf sampleConfig)).countP
      (fun l => ("upstream ".data).isPrefixOf l) = 1 :=
  ⟨(render_structure (processedOf sampleConfig) (by decide) (by decide) (by decide)
      (by decide)).1,
    (render_structure (processedOf sampleConfig) (by decide) (by decide) (by decide)
      (by decide)).2.2.1⟩

end DepSite
